import Mathlib

/-!
Verification of the sciris date/time module (`sc_datetime.py`): a shallow
embedding of `readdate`, `date`, `day`, `daterange`, `datedelta`,
`elapsedtimestr` and the `tic`/`toc` stopwatch, together with proofs about
their specified behaviour.

Python's `datetime` library (an external collaborator of the module) is
modelled by its own documented algorithms: proleptic-Gregorian ordinals
(`_ymd2ord` / `_ord2ymd`), `strptime` with the CPython format regexes, and
`strftime` on the directives the module uses.
-/

set_option maxRecDepth 10000

namespace Sciris

/-- Characters of a Python string. -/
abbrev Str := List Char

/-! ## Python `datetime` calendar model -/

/-- Gregorian leap-year test (Python `calendar.isleap` / `datetime`). -/
def isLeap (y : Int) : Bool := y % 4 == 0 && (y % 100 != 0 || y % 400 == 0)

/-- Days in the year before month `m` in a non-leap year
(Python `datetime._DAYS_BEFORE_MONTH`). -/
def dbm (m : Int) : Int :=
  if m ≤ 1 then 0 else if m = 2 then 31 else if m = 3 then 59 else if m = 4 then 90
  else if m = 5 then 120 else if m = 6 then 151 else if m = 7 then 181
  else if m = 8 then 212 else if m = 9 then 243 else if m = 10 then 273
  else if m = 11 then 304 else 334

/-- Days before January 1 of year `y` (Python `datetime._days_before_year`). -/
def daysBeforeYear (y : Int) : Int :=
  (y-1)*365 + (y-1)/4 - (y-1)/100 + (y-1)/400

/-- Number of days in month `m` of year `y` (Python `datetime._days_in_month`). -/
def daysInMonth (y m : Int) : Int :=
  if m = 2 then (if isLeap y then 29 else 28)
  else if m = 4 ∨ m = 6 ∨ m = 9 ∨ m = 11 then 30 else 31

/-- The extra leap day counted by ordinals for months past February. -/
def leapAdj (y m : Int) : Int := if 2 < m ∧ isLeap y then 1 else 0

/-- Python `datetime._ymd2ord`: proleptic-Gregorian ordinal, 0001-01-01 ↦ 1. -/
def ymd2ord (y m d : Int) : Int :=
  daysBeforeYear y + dbm m + leapAdj y m + d

/-- The month-guess correction step of Python `datetime._ord2ymd`. -/
def monthFromGuess (nn leapB g : Int) : Int :=
  if nn < dbm g + (if 2 < g then leapB else 0) then g - 1 else g

/-- Python `datetime._ord2ymd`: ordinal to (year, month, day). -/
def ord2ymd (n : Int) : Int × Int × Int :=
  let n0 := n - 1
  let n400 := n0 / 146097
  let r1 := n0 % 146097
  let n100 := r1 / 36524
  let r2 := r1 % 36524
  let n4 := r2 / 1461
  let r3 := r2 % 1461
  let n1 := r3 / 365
  let nn := r3 % 365
  let year := n400 * 400 + n100 * 100 + n4 * 4 + n1 + 1
  if n1 = 4 ∨ n100 = 4 then
    (year - 1, 12, 31)
  else
    let leapB : Int := if isLeap year then 1 else 0
    let m := monthFromGuess nn leapB ((nn + 50) / 32)
    (year, m, nn - (dbm m + (if 2 < m then leapB else 0)) + 1)

theorem isLeap_iff (y : Int) : isLeap y = true ↔ (y % 4 = 0 ∧ (y % 100 ≠ 0 ∨ y % 400 = 0)) := by
  simp [isLeap]

theorem ord_key (n n0 n400 r1 n100 r2 n4 r3 n1 nn year : Int)
    (e0 : n0 = n - 1) (e1 : n400 = n0 / 146097) (e2 : r1 = n0 % 146097)
    (e3 : n100 = r1 / 36524) (e4 : r2 = r1 % 36524) (e5 : n4 = r2 / 1461)
    (e6 : r3 = r2 % 1461) (e7 : n1 = r3 / 365) (e8 : nn = r3 % 365)
    (e9 : year = n400 * 400 + n100 * 100 + n4 * 4 + n1 + 1) :
    ymd2ord
      (if n1 = 4 ∨ n100 = 4 then ((year - 1 : Int), (12:Int), (31:Int))
       else
        (year, monthFromGuess nn (if isLeap year then 1 else 0) ((nn + 50) / 32),
          nn - (dbm (monthFromGuess nn (if isLeap year then 1 else 0) ((nn + 50) / 32)) +
            (if 2 < monthFromGuess nn (if isLeap year then 1 else 0) ((nn + 50) / 32)
             then (if isLeap year then (1:Int) else 0) else 0)) + 1)).1
      (if n1 = 4 ∨ n100 = 4 then ((year - 1 : Int), (12:Int), (31:Int))
       else
        (year, monthFromGuess nn (if isLeap year then 1 else 0) ((nn + 50) / 32),
          nn - (dbm (monthFromGuess nn (if isLeap year then 1 else 0) ((nn + 50) / 32)) +
            (if 2 < monthFromGuess nn (if isLeap year then 1 else 0) ((nn + 50) / 32)
             then (if isLeap year then (1:Int) else 0) else 0)) + 1)).2.1
      (if n1 = 4 ∨ n100 = 4 then ((year - 1 : Int), (12:Int), (31:Int))
       else
        (year, monthFromGuess nn (if isLeap year then 1 else 0) ((nn + 50) / 32),
          nn - (dbm (monthFromGuess nn (if isLeap year then 1 else 0) ((nn + 50) / 32)) +
            (if 2 < monthFromGuess nn (if isLeap year then 1 else 0) ((nn + 50) / 32)
             then (if isLeap year then (1:Int) else 0) else 0)) + 1)).2.2 = n := by
  by_cases hc : n1 = 4 ∨ n100 = 4
  · simp only [if_pos hc]
    have hleap : isLeap (year - 1) = true := by rw [isLeap_iff]; omega
    show daysBeforeYear (year - 1) + dbm 12 + leapAdj (year - 1) 12 + 31 = n
    rw [leapAdj, if_pos (⟨by norm_num, hleap⟩ : (2:Int) < 12 ∧ isLeap (year - 1) = true)]
    rw [daysBeforeYear, show dbm 12 = 334 by decide]
    rcases hc with h | h
    · have f4 : (year - 1 - 1) / 4 = 100*n400 + 25*n100 + n4 := by omega
      have f100 : (year - 1 - 1) / 100 = 4*n400 + n100 := by omega
      have f400 : (year - 1 - 1) / 400 = n400 := by omega
      omega
    · have f4 : (year - 1 - 1) / 4 = 100*n400 + 99 := by omega
      have f100 : (year - 1 - 1) / 100 = 4*n400 + 3 := by omega
      have f400 : (year - 1 - 1) / 400 = n400 := by omega
      omega
  · simp only [if_neg hc]
    set leapB : Int := if isLeap year then 1 else 0 with hleapB
    set m := monthFromGuess nn leapB ((nn + 50) / 32) with hm
    show daysBeforeYear year + dbm m + leapAdj year m +
      (nn - (dbm m + (if 2 < m then leapB else 0)) + 1) = n
    have hadj : leapAdj year m = (if 2 < m then leapB else 0) := by
      rw [leapAdj, hleapB]
      by_cases hL : isLeap year = true
      · simp [hL]
      · simp [hL]
    rw [hadj, daysBeforeYear]
    have f4 : (year - 1) / 4 = 100*n400 + 25*n100 + n4 := by omega
    have f100 : (year - 1) / 100 = 4*n400 + n100 := by omega
    have f400 : (year - 1) / 400 = n400 := by omega
    omega

/-- The ordinal round trip of Python's calendar: converting an ordinal to
(year, month, day) and back is the identity. -/
theorem ymd2ord_ord2ymd (n : Int) :
    ymd2ord (ord2ymd n).1 (ord2ymd n).2.1 (ord2ymd n).2.2 = n := by
  exact ord_key n (n-1) ((n-1)/146097) ((n-1)%146097) ((n-1)%146097/36524) ((n-1)%146097%36524)
    ((n-1)%146097%36524/1461) ((n-1)%146097%36524%1461) ((n-1)%146097%36524%1461/365)
    ((n-1)%146097%36524%1461%365)
    ((n-1)/146097*400 + (n-1)%146097/36524*100 + (n-1)%146097%36524/1461*4 +
      (n-1)%146097%36524%1461/365 + 1)
    rfl rfl rfl rfl rfl rfl rfl rfl rfl rfl

set_option maxHeartbeats 1000000 in
theorem month_guess_valid (nn leapB g : Int) (hg : g = (nn + 50) / 32)
    (h0 : 0 ≤ nn) (h1 : nn ≤ 364) (hl0 : 0 ≤ leapB) (hl1 : leapB ≤ 1) :
    1 ≤ monthFromGuess nn leapB g ∧ monthFromGuess nn leapB g ≤ 12 ∧
    1 ≤ nn - (dbm (monthFromGuess nn leapB g) +
        (if 2 < monthFromGuess nn leapB g then leapB else 0)) + 1 ∧
    nn - (dbm (monthFromGuess nn leapB g) +
        (if 2 < monthFromGuess nn leapB g then leapB else 0)) + 1 ≤
      (if monthFromGuess nn leapB g = 2 then 28 + leapB
       else if monthFromGuess nn leapB g = 4 ∨ monthFromGuess nn leapB g = 6 ∨
         monthFromGuess nn leapB g = 9 ∨ monthFromGuess nn leapB g = 11 then 30 else 31) := by
  have hgr : g = 1 ∨ g = 2 ∨ g = 3 ∨ g = 4 ∨ g = 5 ∨ g = 6 ∨ g = 7 ∨ g = 8 ∨ g = 9 ∨
      g = 10 ∨ g = 11 ∨ g = 12 := by omega
  rcases hgr with h|h|h|h|h|h|h|h|h|h|h|h
  · subst h
    rw [monthFromGuess]
    by_cases hbr : nn < dbm 1 + (if (2:Int) < 1 then leapB else 0)
    · rw [if_pos hbr]
      rw [show dbm (1:Int) = 0 from by decide] at hbr
      norm_num at hbr
      omega
    · rw [if_neg hbr]
      rw [show dbm (1:Int) = 0 from by decide] at hbr ⊢
      norm_num at hbr ⊢
      omega
  · subst h
    rw [monthFromGuess]
    by_cases hbr : nn < dbm 2 + (if (2:Int) < 2 then leapB else 0)
    · rw [if_pos hbr]
      rw [show dbm (2:Int) = 31 from by decide] at hbr
      rw [show dbm ((2:Int) - 1) = 0 from by decide]
      norm_num at hbr ⊢
      omega
    · rw [if_neg hbr]
      rw [show dbm (2:Int) = 31 from by decide] at hbr ⊢
      norm_num at hbr ⊢
      omega
  · subst h
    rw [monthFromGuess]
    by_cases hbr : nn < dbm 3 + (if (2:Int) < 3 then leapB else 0)
    · rw [if_pos hbr]
      rw [show dbm (3:Int) = 59 from by decide] at hbr
      rw [show dbm ((3:Int) - 1) = 31 from by decide]
      norm_num at hbr ⊢
      omega
    · rw [if_neg hbr]
      rw [show dbm (3:Int) = 59 from by decide] at hbr ⊢
      norm_num at hbr ⊢
      omega
  · subst h
    rw [monthFromGuess]
    by_cases hbr : nn < dbm 4 + (if (2:Int) < 4 then leapB else 0)
    · rw [if_pos hbr]
      rw [show dbm (4:Int) = 90 from by decide] at hbr
      rw [show dbm ((4:Int) - 1) = 59 from by decide]
      norm_num at hbr ⊢
      omega
    · rw [if_neg hbr]
      rw [show dbm (4:Int) = 90 from by decide] at hbr ⊢
      norm_num at hbr ⊢
      omega
  · subst h
    rw [monthFromGuess]
    by_cases hbr : nn < dbm 5 + (if (2:Int) < 5 then leapB else 0)
    · rw [if_pos hbr]
      rw [show dbm (5:Int) = 120 from by decide] at hbr
      rw [show dbm ((5:Int) - 1) = 90 from by decide]
      norm_num at hbr ⊢
      omega
    · rw [if_neg hbr]
      rw [show dbm (5:Int) = 120 from by decide] at hbr ⊢
      norm_num at hbr ⊢
      omega
  · subst h
    rw [monthFromGuess]
    by_cases hbr : nn < dbm 6 + (if (2:Int) < 6 then leapB else 0)
    · rw [if_pos hbr]
      rw [show dbm (6:Int) = 151 from by decide] at hbr
      rw [show dbm ((6:Int) - 1) = 120 from by decide]
      norm_num at hbr ⊢
      omega
    · rw [if_neg hbr]
      rw [show dbm (6:Int) = 151 from by decide] at hbr ⊢
      norm_num at hbr ⊢
      omega
  · subst h
    rw [monthFromGuess]
    by_cases hbr : nn < dbm 7 + (if (2:Int) < 7 then leapB else 0)
    · rw [if_pos hbr]
      rw [show dbm (7:Int) = 181 from by decide] at hbr
      rw [show dbm ((7:Int) - 1) = 151 from by decide]
      norm_num at hbr ⊢
      omega
    · rw [if_neg hbr]
      rw [show dbm (7:Int) = 181 from by decide] at hbr ⊢
      norm_num at hbr ⊢
      omega
  · subst h
    rw [monthFromGuess]
    by_cases hbr : nn < dbm 8 + (if (2:Int) < 8 then leapB else 0)
    · rw [if_pos hbr]
      rw [show dbm (8:Int) = 212 from by decide] at hbr
      rw [show dbm ((8:Int) - 1) = 181 from by decide]
      norm_num at hbr ⊢
      omega
    · rw [if_neg hbr]
      rw [show dbm (8:Int) = 212 from by decide] at hbr ⊢
      norm_num at hbr ⊢
      omega
  · subst h
    rw [monthFromGuess]
    by_cases hbr : nn < dbm 9 + (if (2:Int) < 9 then leapB else 0)
    · rw [if_pos hbr]
      rw [show dbm (9:Int) = 243 from by decide] at hbr
      rw [show dbm ((9:Int) - 1) = 212 from by decide]
      norm_num at hbr ⊢
      omega
    · rw [if_neg hbr]
      rw [show dbm (9:Int) = 243 from by decide] at hbr ⊢
      norm_num at hbr ⊢
      omega
  · subst h
    rw [monthFromGuess]
    by_cases hbr : nn < dbm 10 + (if (2:Int) < 10 then leapB else 0)
    · rw [if_pos hbr]
      rw [show dbm (10:Int) = 273 from by decide] at hbr
      rw [show dbm ((10:Int) - 1) = 243 from by decide]
      norm_num at hbr ⊢
      omega
    · rw [if_neg hbr]
      rw [show dbm (10:Int) = 273 from by decide] at hbr ⊢
      norm_num at hbr ⊢
      omega
  · subst h
    rw [monthFromGuess]
    by_cases hbr : nn < dbm 11 + (if (2:Int) < 11 then leapB else 0)
    · rw [if_pos hbr]
      rw [show dbm (11:Int) = 304 from by decide] at hbr
      rw [show dbm ((11:Int) - 1) = 273 from by decide]
      norm_num at hbr ⊢
      omega
    · rw [if_neg hbr]
      rw [show dbm (11:Int) = 304 from by decide] at hbr ⊢
      norm_num at hbr ⊢
      omega
  · subst h
    rw [monthFromGuess]
    by_cases hbr : nn < dbm 12 + (if (2:Int) < 12 then leapB else 0)
    · rw [if_pos hbr]
      rw [show dbm (12:Int) = 334 from by decide] at hbr
      rw [show dbm ((12:Int) - 1) = 304 from by decide]
      norm_num at hbr ⊢
      omega
    · rw [if_neg hbr]
      rw [show dbm (12:Int) = 334 from by decide] at hbr ⊢
      norm_num at hbr ⊢
      omega

/-- Validity of `ord2ymd`: the month and day are in range for the year. -/
theorem ord2ymd_valid (n : Int) :
    1 ≤ (ord2ymd n).2.1 ∧ (ord2ymd n).2.1 ≤ 12 ∧
    1 ≤ (ord2ymd n).2.2 ∧ (ord2ymd n).2.2 ≤ daysInMonth (ord2ymd n).1 (ord2ymd n).2.1 := by
  rw [ord2ymd]
  by_cases hc : (n-1)%146097%36524%1461/365 = 4 ∨ (n-1)%146097/36524 = 4
  · simp only [if_pos hc]
    refine ⟨by norm_num, by norm_num, by norm_num, ?_⟩
    rw [daysInMonth]
    norm_num
  · simp only [if_neg hc]
    set year := (n-1)/146097*400 + (n-1)%146097/36524*100 + (n-1)%146097%36524/1461*4 +
      (n-1)%146097%36524%1461/365 + 1 with hyear
    set nn := (n-1)%146097%36524%1461%365 with hnn
    have h0 : 0 ≤ nn := by omega
    have h1 : nn ≤ 364 := by omega
    by_cases hL : isLeap year = true
    · rw [if_pos hL]
      obtain ⟨hA, hB, hC, hD⟩ := month_guess_valid nn 1 ((nn + 50) / 32) rfl h0 h1
        (by norm_num) (by norm_num)
      refine ⟨hA, hB, hC, ?_⟩
      rw [daysInMonth]
      by_cases h2 : monthFromGuess nn 1 ((nn + 50) / 32) = 2
      · rw [if_pos h2, if_pos hL]
        rw [if_pos h2] at hD
        omega
      · rw [if_neg h2]
        rw [if_neg h2] at hD
        split at hD <;> rename_i h3
        · rw [if_pos h3]; omega
        · rw [if_neg h3]; omega
    · rw [if_neg hL]
      obtain ⟨hA, hB, hC, hD⟩ := month_guess_valid nn 0 ((nn + 50) / 32) rfl h0 h1
        (by norm_num) (by norm_num)
      refine ⟨hA, hB, hC, ?_⟩
      rw [daysInMonth]
      by_cases h2 : monthFromGuess nn 0 ((nn + 50) / 32) = 2
      · rw [if_pos h2, if_neg hL]
        rw [if_pos h2] at hD
        omega
      · rw [if_neg h2]
        rw [if_neg h2] at hD
        split at hD <;> rename_i h3
        · rw [if_pos h3]; omega
        · rw [if_neg h3]; omega

/-! ## Python timestamps -/

/-- Python `datetime.datetime` (naive): calendar fields plus time of day. -/
structure PDateTime where
  year : Int
  month : Int
  day : Int
  hour : Int
  minute : Int
  second : Int
  micro : Int
deriving DecidableEq

/-- Python `datetime.date`: a pure calendar date. -/
structure PDate where
  year : Int
  month : Int
  day : Int
deriving DecidableEq

/-- `datetime.date()`: truncate a timestamp to its calendar date. -/
def PDateTime.toDate (t : PDateTime) : PDate := ⟨t.year, t.month, t.day⟩

/-- `date.toordinal()`. -/
def PDate.toordinal (d : PDate) : Int := ymd2ord d.year d.month d.day

/-- Date subtraction: `(d1 - d2).days`. -/
def PDate.sub (d1 d2 : PDate) : Int := d1.toordinal - d2.toordinal

/-- `date.fromordinal(n)`. -/
def dateFromOrdinal (n : Int) : PDate :=
  ⟨(ord2ymd n).1, (ord2ymd n).2.1, (ord2ymd n).2.2⟩

/-- `date + timedelta(days=k)`. -/
def PDate.addDays (d : PDate) (k : Int) : PDate := dateFromOrdinal (d.toordinal + k)

/-- `datetime + relativedelta(days, months, years, weeks)` for the pure-days
case used with day shifts: months/years go through calendar month arithmetic,
days/weeks are plain day offsets. -/
def PDateTime.addDays (t : PDateTime) (k : Int) : PDateTime :=
  let d := dateFromOrdinal (ymd2ord t.year t.month t.day + k)
  ⟨d.year, d.month, d.day, t.hour, t.minute, t.second, t.micro⟩

/-- `dateutil.relativedelta.relativedelta(days, months, years, weeks)` applied
to a timestamp: first shift years and months (clamping the day to the target
month's length), then add days and weeks as plain day offsets. -/
def PDateTime.addRelativeDelta (t : PDateTime) (days months years weeks : Int) : PDateTime :=
  let totalMonths := (t.month - 1) + months + 12 * years
  let y := t.year + totalMonths / 12
  let m := totalMonths % 12 + 1
  let d := min t.day (daysInMonth y m)
  let base : PDateTime := ⟨y, m, d, t.hour, t.minute, t.second, t.micro⟩
  base.addDays (days + 7 * weeks)

/-- Total seconds of a timestamp since the epoch 1970-01-01 00:00:00 (used
for timestamp comparison and subtraction). -/
def PDateTime.toSecs (t : PDateTime) : Int :=
  (ymd2ord t.year t.month t.day - 719163) * 86400 + t.hour * 3600 + t.minute * 60 + t.second

/-- Total microseconds since the epoch. -/
def PDateTime.toMicros (t : PDateTime) : Int := t.toSecs * 1000000 + t.micro

/-- `datetime.fromtimestamp(n)` for an integer number of seconds
(timezone modelled as UTC). -/
def fromtimestamp (n : Int) : PDateTime :=
  let days := n / 86400
  let secs := n % 86400
  let d := dateFromOrdinal (719163 + days)
  ⟨d.year, d.month, d.day, secs / 3600, secs % 3600 / 60, secs % 60, 0⟩

/-- `pylab.num2date(n)` for an integer: matplotlib dates are days since
1970-01-01 (the matplotlib default epoch). -/
def num2date (n : Int) : PDateTime :=
  let d := dateFromOrdinal (719163 + n)
  ⟨d.year, d.month, d.day, 0, 0, 0, 0⟩

/-! ## Digit strings -/

/-- Decimal digits of `k` (fuel-based; exact for any realistic magnitude),
modelling Python `str(k)` for a nonnegative integer. -/
def natDigitsAux : Nat → Nat → Str
  | 0, _ => []
  | fuel+1, k => if k < 10 then [Nat.digitChar k] else natDigitsAux fuel (k / 10) ++ [Nat.digitChar (k % 10)]

def natStr (k : Nat) : Str := natDigitsAux 30 k

/-- Python `str(n)` of an integer. -/
def intStr (n : Int) : Str := if n < 0 then '-' :: natStr (-n).toNat else natStr n.toNat

/-- Zero-padded 2-digit field of strftime. -/
def pad2 (n : Int) : Str := [Nat.digitChar (n.toNat / 10 % 10), Nat.digitChar (n.toNat % 10)]

/-- Zero-padded 4-digit field of strftime (`%Y`). -/
def pad4 (n : Int) : Str :=
  [Nat.digitChar (n.toNat / 1000 % 10), Nat.digitChar (n.toNat / 100 % 10),
   Nat.digitChar (n.toNat / 10 % 10), Nat.digitChar (n.toNat % 10)]

/-- Numeric value of a digit run. -/
def digitsVal (s : Str) : Int := s.foldl (fun acc c => acc * 10 + ((c.toNat : Int) - 48)) 0

/-! ## strptime (CPython `_strptime` model) -/

def monthAbbrevs : List Str :=
  ["Jan".toList, "Feb".toList, "Mar".toList, "Apr".toList, "May".toList, "Jun".toList,
   "Jul".toList, "Aug".toList, "Sep".toList, "Oct".toList, "Nov".toList, "Dec".toList]

def monthFulls : List Str :=
  ["January".toList, "February".toList, "March".toList, "April".toList, "May".toList,
   "June".toList, "July".toList, "August".toList, "September".toList, "October".toList,
   "November".toList, "December".toList]

def dayAbbrevs : List Str :=
  ["Mon".toList, "Tue".toList, "Wed".toList, "Thu".toList, "Fri".toList,
   "Sat".toList, "Sun".toList]

/-- ASCII lower-casing of one character: CPython `_strptime` compiles every
format regex with `re.IGNORECASE`, which on these ASCII patterns folds
`A`–`Z` onto `a`–`z`. -/
def lowerChar (c : Char) : Char :=
  if 'A' ≤ c ∧ c ≤ 'Z' then Char.ofNat (c.toNat + 32) else c

/-- Match one name of a list as a prefix of `s` (case-insensitively, as the
`IGNORECASE`-compiled name groups do); returns its 1-based index and the
remaining input. -/
def matchName : List Str → Nat → Str → Option (Nat × Str)
  | [], _, _ => none
  | nm :: rest, i, s =>
    if (nm.map lowerChar).isPrefixOf (s.map lowerChar) then some (i, s.drop nm.length)
    else matchName rest (i+1) s

/-- Partially-filled time fields during a strptime run; CPython defaults to
1900-01-01 00:00:00. -/
structure TM where
  y : Int
  m : Int
  d : Int
  hh : Int
  mm : Int
  ss : Int
  us : Int
deriving DecidableEq

def tmDefault : TM := ⟨1900, 1, 1, 0, 0, 0, 0⟩

/-- Greedy capped digit run at the head of `s`. -/
def digitRun (cap : Nat) (s : Str) : Str := (s.takeWhile Char.isDigit).take cap

/-- The strptime matching loop: pattern, input, accumulated fields.
Directive digit widths and value ranges follow CPython `_strptime.TimeRE`
(`%Y` is exactly four digits; `%m`/`%d`/`%H`/`%M`/`%S` are one or two);
literal pattern characters match case-insensitively because the compiled
regex carries `re.IGNORECASE`. -/
def runFmt : Str → Str → TM → Except Str TM
  | [], s, tm =>
    match s with
    | [] => .ok tm
    | c :: r => .error ("unconverted data remains: ".toList ++ (c :: r))
  | c :: pr0, s, tm =>
    if c = '%' then
      match pr0 with
      | [] => .error "stray percent in format".toList
      | dir :: pr =>
        if dir = 'Y' then
          let run := digitRun 4 s
          if run.length = 4 then runFmt pr (s.drop 4) { tm with y := digitsVal run }
          else .error "time data does not match format".toList
        else if dir = 'm' then
          let run := digitRun 2 s
          if run.length ≠ 0 ∧ 1 ≤ digitsVal run ∧ digitsVal run ≤ 12 then
            runFmt pr (s.drop run.length) { tm with m := digitsVal run }
          else .error "time data does not match format".toList
        else if dir = 'd' then
          let run := digitRun 2 s
          if run.length ≠ 0 ∧ 1 ≤ digitsVal run ∧ digitsVal run ≤ 31 then
            runFmt pr (s.drop run.length) { tm with d := digitsVal run }
          else .error "time data does not match format".toList
        else if dir = 'H' then
          let run := digitRun 2 s
          if run.length ≠ 0 ∧ 0 ≤ digitsVal run ∧ digitsVal run ≤ 23 then
            runFmt pr (s.drop run.length) { tm with hh := digitsVal run }
          else .error "time data does not match format".toList
        else if dir = 'M' then
          let run := digitRun 2 s
          if run.length ≠ 0 ∧ 0 ≤ digitsVal run ∧ digitsVal run ≤ 59 then
            runFmt pr (s.drop run.length) { tm with mm := digitsVal run }
          else .error "time data does not match format".toList
        else if dir = 'S' then
          let run := digitRun 2 s
          if run.length ≠ 0 ∧ 0 ≤ digitsVal run ∧ digitsVal run ≤ 61 then
            runFmt pr (s.drop run.length) { tm with ss := digitsVal run }
          else .error "time data does not match format".toList
        else if dir = 'f' then
          let run := digitRun 6 s
          if run.length ≠ 0 then
            runFmt pr (s.drop run.length) { tm with us := digitsVal run * (10 ^ (6 - run.length) : Nat) }
          else .error "time data does not match format".toList
        else if dir = 'b' then
          let res := matchName monthAbbrevs 1 s
          if res = none then .error "time data does not match format".toList
          else runFmt pr (res.getD (0, [])).2 { tm with m := (res.getD (0, [])).1 }
        else if dir = 'B' then
          let res := matchName monthFulls 1 s
          if res = none then .error "time data does not match format".toList
          else runFmt pr (res.getD (0, [])).2 { tm with m := (res.getD (0, [])).1 }
        else if dir = 'a' then
          let res := matchName dayAbbrevs 1 s
          if res = none then .error "time data does not match format".toList
          else runFmt pr (res.getD (0, [])).2 tm
        else .error ("bad directive in format".toList)
    else
      match s with
      | [] => .error "time data does not match format".toList
      | c' :: sr =>
        if lowerChar c = lowerChar c' then runFmt pr0 sr tm
        else .error "time data does not match format".toList

/-- `datetime.strptime(s, fmt)`: run the matcher, then apply the `datetime`
constructor's range validation. -/
def strptime (s fmt : Str) : Except Str PDateTime :=
  match runFmt fmt s tmDefault with
  | .error e => .error e
  | .ok tm =>
    if 1 ≤ tm.y ∧ tm.y ≤ 9999 ∧ 1 ≤ tm.m ∧ tm.m ≤ 12 ∧ 1 ≤ tm.d ∧ tm.d ≤ daysInMonth tm.y tm.m ∧
       0 ≤ tm.hh ∧ tm.hh ≤ 23 ∧ 0 ≤ tm.mm ∧ tm.mm ≤ 59 ∧ 0 ≤ tm.ss ∧ tm.ss ≤ 59 then
      .ok ⟨tm.y, tm.m, tm.d, tm.hh, tm.mm, tm.ss, tm.us⟩
    else .error "date value out of range".toList

/-! ## strftime (directives used by the module) -/

/-- `strftime` on the directives `sc_datetime` uses (`%Y %m %d %H %M %S %b %B`)
plus literal characters. -/
def strftime : Str → PDateTime → Str
  | [], _ => []
  | '%' :: dir :: pr, t =>
    (if dir = 'Y' then pad4 t.year
     else if dir = 'm' then pad2 t.month
     else if dir = 'd' then pad2 t.day
     else if dir = 'H' then pad2 t.hour
     else if dir = 'M' then pad2 t.minute
     else if dir = 'S' then pad2 t.second
     else if dir = 'b' then monthAbbrevs.getD (t.month.toNat - 1) []
     else if dir = 'B' then monthFulls.getD (t.month.toNat - 1) []
     else ['%', dir]) ++ strftime pr t
  | c :: pr, t => c :: strftime pr t

/-- `date.strftime`: format a pure date (time fields zero). -/
def PDate.strftime (fmt : Str) (d : PDate) : Str :=
  Sciris.strftime fmt ⟨d.year, d.month, d.day, 0, 0, 0, 0⟩

/-! ## Python values and the shape machinery of `sc_datetime` -/

/-- A raw element value as dispatched on by the module: Python `None`, a
number (integral case), a string, a `datetime.datetime`, or a
`datetime.date`. -/
inductive RawVal where
  | pynone
  | num (n : Int)
  | str (s : Str)
  | dtime (t : PDateTime)
  | pdate (d : PDate)
deriving DecidableEq

/-- Python truthiness of a raw value (used by `day`'s `if start_date:`). -/
def pyTruthy : RawVal → Bool
  | .pynone => false
  | .num n => n ≠ 0
  | .str s => !s.isEmpty
  | _ => true

/-- The primary argument shape: a bare scalar, a list, or a numpy array. -/
inductive PyInput where
  | scalar (v : RawVal)
  | list (vs : List RawVal)
  | array (vs : List RawVal)
deriving DecidableEq

/-- An output that mirrors the input's shape. -/
inductive PyOutput (α : Type) where
  | scalar (a : α)
  | list (l : List α)
  | array (l : List α)
deriving DecidableEq

/-- Modelled from the spec: `sc_utils.promotetolist` (the repository file
`sc_utils.py` is not part of the sources here). A `None` value with
`keepnone` unset becomes the empty list; any other non-list value is
wrapped in a singleton list. -/
def promotetolist : RawVal → List RawVal
  | .pynone => []
  | v => [v]

/-- `_sanitize_iterables`: flatten the primary value and extra positional
arguments to one list, recording list-ness and array-ness. -/
def sanitizeIterables (obj : PyInput) (args : List RawVal) : List RawVal × Bool × Bool :=
  let is_list := (match obj with | .list _ => true | _ => false) || !args.isEmpty
  let is_array := match obj with | .array _ => true | _ => false
  let objs := (match obj with
    | .scalar v => promotetolist v
    | .list vs => vs
    | .array vs => vs) ++ args
  (objs, is_list, is_array)

/-- `_sanitize_output`: restore the original shape; a one-element result from
a non-list input is unwrapped to a bare value. -/
def sanitizeOutput {α : Type} (obj : List α) (is_list is_array : Bool) : PyOutput α :=
  if is_array then .array obj
  else if !is_list then
    match obj with
    | [a] => .scalar a
    | l => .list l
  else .list obj

/-- A Python exception raised by the module. -/
inductive PyErr where
  | valueError (msg : Str)
  | typeError (msg : Str)
deriving DecidableEq

/-- Modelled from the spec: `sc_utils.strjoin` — join with a comma-space
separator. -/
def joinWith (sep : Str) : List Str → Str
  | [] => []
  | [x] => x
  | x :: xs => x ++ sep ++ joinWith sep xs

/-- Modelled from the spec: `sc_utils.newlinejoin` — join with newlines. -/
def newlinejoin (l : List Str) : Str := joinWith ['\n'] l

/-- Python `str()`/f-string rendering of a raw value, for error messages. -/
def reprVal : RawVal → Str
  | .pynone => "None".toList
  | .num n => intStr n
  | .str s => s
  | .dtime t => strftime "%Y-%m-%d %H:%M:%S".toList t
  | .pdate d => d.strftime "%Y-%m-%d".toList

/-! ## readdate -/

/-- The `dateformat` argument: a single format string or a list of them
(`None` is represented as an absent `Option`). -/
inductive DFormat where
  | one (v : Str)
  | many (l : List Str)
deriving DecidableEq

/-- `ut.promotetolist(dateformat, keepnone=True)`. -/
def formatListOf : Option DFormat → List (Option Str)
  | none => [none]
  | some (.one v) => [some v]
  | some (.many l) => l.map some

/-- The default chain of formats tried by `readdate` (`formats_to_try`). -/
def defaultFormats : List (Str × Str) :=
  [("date".toList,           "%Y-%m-%d".toList),
   ("date-slash".toList,     "%Y/%m/%d".toList),
   ("date-dot".toList,       "%Y.%m.%d".toList),
   ("date-space".toList,     "%Y %m %d".toList),
   ("date-alpha".toList,     "%Y-%b-%d".toList),
   ("date-alpha-rev".toList, "%d-%b-%Y".toList),
   ("date-alpha-sp".toList,  "%d %b %Y".toList),
   ("date-Alpha".toList,     "%Y-%B-%d".toList),
   ("date-Alpha-rev".toList, "%d-%B-%Y".toList),
   ("date-Alpha-sp".toList,  "%d %B %Y".toList),
   ("date-numeric".toList,   "%Y%m%d".toList),
   ("datetime".toList,       "%Y-%m-%d %H:%M:%S".toList),
   ("datetime-alpha".toList, "%Y-%b-%d %H:%M:%S".toList),
   ("default".toList,        "%Y-%m-%d %H:%M:%S.%f".toList),
   ("ctime".toList,          "%a %b %d %H:%M:%S %Y".toList)]

/-- Day-month-year formats (`dmy_formats`). -/
def dmyFormats : List (Str × Str) :=
  [("date".toList,       "%d-%m-%Y".toList),
   ("date-slash".toList, "%d/%m/%Y".toList),
   ("date-dot".toList,   "%d.%m.%Y".toList),
   ("date-space".toList, "%d %m %Y".toList)]

/-- Month-day-year formats (`mdy_formats`). -/
def mdyFormats : List (Str × Str) :=
  [("date".toList,       "%m-%d-%Y".toList),
   ("date-slash".toList, "%m/%d/%Y".toList),
   ("date-dot".toList,   "%m.%d.%Y".toList),
   ("date-space".toList, "%m %d %Y".toList)]

/-- Key of a user-supplied format (`f'User supplied {f}'`). -/
def userKey (i : Nat) : Str := "User supplied ".toList ++ natStr i

/-- Resolution of `dateformat` to the catalog of formats to try: `None`
keeps the default chain, `'dmy'`/`'mdy'` select those catalogs, anything
else replaces the catalog with the user-supplied patterns. -/
def formatsToTry (df : Option DFormat) : List (Str × Str) :=
  match df with
  | none => defaultFormats
  | some f =>
    if f = .one "dmy".toList then dmyFormats
    else if f = .one "mdy".toList then mdyFormats
    else (formatListOf (some f)).enum.map (fun p => (userKey p.1, p.2.getD []))

/-- A single strptime attempt on a raw value: only strings can be parsed
(`strptime` raises a TypeError on anything else, caught by the loop). -/
def attemptParse (strp : Str → Str → Except Str PDateTime) (v : RawVal) (fmt : Str) :
    Except Str PDateTime :=
  match v with
  | .str s => strp s fmt
  | _ => .error "strptime() argument 1 must be str, not the supplied type".toList

/-- The first-match-wins format loop of `readdate`: try each catalog entry in
order, stopping at the first success; every failure's message is recorded in
the `exceptions` mapping, keyed by format identifier. -/
def tryFormats (strp : Str → Str → Except Str PDateTime) (v : RawVal) :
    List (Str × Str) → List (Str × Str) → Option PDateTime × List (Str × Str)
  | [], exc => (none, exc)
  | (key, fmt) :: rest, exc =>
    match attemptParse strp v fmt with
    | .ok t => (some t, exc)
    | .error e => tryFormats strp v rest (exc ++ [(key, e)])

/-- The numeric-mode error message of `readdate`. -/
def numModeErrMsg (n : Int) (fmtList : List (Option Str)) : Str :=
  "Could not convert numeric date ".toList ++ intStr n ++
  " using available formats ".toList ++
  joinWith ", ".toList (fmtList.map (fun f => f.getD "None".toList)) ++
  "; must be \"posix\" or \"ordinal\"".toList

/-- The parse-exhausted error message of `readdate`: the input, the list of
attempted format patterns, and (outside dmy/mdy mode) the disambiguation
note. The recorded per-format exception details are not part of it. -/
def parseFailMsg (v : RawVal) (catalog : List (Str × Str)) (df : Option DFormat) : Str :=
  "Was unable to convert \"".toList ++ reprVal v ++
  "\" to a date using the formats:\n".toList ++
  newlinejoin (catalog.map (fun p => p.2)) ++
  (if df = some (.one "dmy".toList) ∨ df = some (.one "mdy".toList) then []
   else "\n\nNote: to read day-month-year or month-day-year dates, use dateformat=\"dmy\" or \"mdy\" respectively.".toList)

/-- Conversion of one element of `readdate`: timestamps pass through,
numbers are interpreted by the active numeric mode, everything else goes
through the format loop. -/
def readdateElemWith (strp : Str → Str → Except Str PDateTime) (fmtList : List (Option Str))
    (catalog : List (Str × Str)) (df : Option DFormat) (v : RawVal) :
    Except PyErr PDateTime :=
  match v with
  | .dtime t => .ok t
  | .num n =>
    if (some "posix".toList) ∈ fmtList ∨ none ∈ fmtList then .ok (fromtimestamp n)
    else if (some "ordinal".toList) ∈ fmtList ∨ (some "matplotlib".toList) ∈ fmtList then
      .ok (num2date n)
    else .error (.valueError (numModeErrMsg n fmtList))
  | v =>
    match tryFormats strp v catalog [] with
    | (some t, _) => .ok t
    | (none, _) => .error (.valueError (parseFailMsg v catalog df))

/-- `sc.readdate` over an arbitrary strptime collaborator. -/
def readdateWith (strp : Str → Str → Except Str PDateTime) (datestr : PyInput)
    (args : List RawVal) (dateformat : Option DFormat) :
    Except PyErr (PyOutput PDateTime) :=
  let fmtList := formatListOf dateformat
  let catalog := formatsToTry dateformat
  let s := sanitizeIterables datestr args
  (s.1.mapM (readdateElemWith strp fmtList catalog dateformat)).map
    (fun l => sanitizeOutput l s.2.1 s.2.2)

/-- `sc.readdate` with the real strptime. -/
def readdate (datestr : PyInput) (args : List RawVal) (dateformat : Option DFormat) :
    Except PyErr (PyOutput PDateTime) :=
  readdateWith strptime datestr args dateformat

/-! ## date -/

/-- One element of a `date` output: `None` passed through, a calendar date,
or a formatted string. -/
inductive DOut where
  | dnone
  | dd (d : PDate)
  | dstr (s : Str)
deriving DecidableEq

/-- The missing-start-date error message of `date`. -/
def missingStartMsg (n : Int) : Str :=
  "To convert the number ".toList ++ intStr n ++
  " to a date, you must either specify \"posix\" or \"ordinal\" read format, or supply start_date".toList

/-- The per-element wrapping error message of `date`
(`Conversion of "..." to a date failed`). -/
def convFailMsg (v : RawVal) (inner : Str) : Str :=
  "Conversion of \"".toList ++ reprVal v ++ "\" to a date failed: ".toList ++ inner

/-- Message text of an exception, as `str(E)` inside an f-string. -/
def errText : PyErr → Str
  | .valueError m => m
  | .typeError m => m

/-- The recursive scalar `date(start_date)` call used to resolve a start
date (all other arguments at their defaults, so strings are parsed with the
default catalog). A numeric start fails inside that call with its own
missing-start error, already wrapped by that call's handler. -/
def dateStartConv (strp : Str → Str → Except Str PDateTime) (sd : RawVal) :
    Except PyErr PDate :=
  match sd with
  | .pdate p => .ok p
  | .dtime t => .ok t.toDate
  | .str s =>
    ((readdateElemWith strp (formatListOf none) defaultFormats none (.str s)).map
      PDateTime.toDate).mapError
        (fun e => .valueError (convFailMsg (.str s) (errText e)))
  | .num n => .error (.valueError (convFailMsg (.num n) (missingStartMsg n)))
  | .pynone => .error (.typeError "unsupported operand type(s) for +: NoneType and timedelta".toList)

/-- The type-directed conversion step of one `date` element (the body of the
`try` block, up to the output formatting): exact `datetime.date` values pass
through, timestamps are truncated, strings go through `readdate`, and bare
numbers are day offsets from `start_date` (or go through `readdate` when a
read format is given). -/
def dateElemConv (strp : Str → Str → Except Str PDateTime) (start_date : RawVal)
    (readformat : Option DFormat) (v : RawVal) : Except PyErr PDate :=
  match v with
  | .pdate p => .ok p
  | .dtime t => .ok t.toDate
  | .str s =>
    (readdateElemWith strp (formatListOf readformat) (formatsToTry readformat)
      readformat (.str s)).map PDateTime.toDate
  | .num n =>
    match readformat with
    | some _ =>
      (readdateElemWith strp (formatListOf readformat) (formatsToTry readformat)
        readformat (.num n)).map PDateTime.toDate
    | none =>
      if start_date = .pynone then .error (.valueError (missingStartMsg n))
      else (dateStartConv strp start_date).map (fun p => p.addDays n)
  | .pynone => .error (.typeError "Cannot interpret the value as a date, must be date, datetime, or string".toList)

/-- Conversion of one element of `date`: `None` passes through; otherwise
the converted date is returned as a date object or formatted with
`outformat`, and any failure is wrapped in a ConversionFailure-style
`ValueError` naming the element. -/
def dateElemWith (strp : Str → Str → Except Str PDateTime) (start_date : RawVal)
    (readformat : Option DFormat) (outformat : Str) (as_date : Bool) (v : RawVal) :
    Except PyErr DOut :=
  match v with
  | .pynone => .ok .dnone
  | v =>
    ((dateElemConv strp start_date readformat v).map
      (fun d => if as_date then .dd d else .dstr (d.strftime outformat))).mapError
        (fun e => .valueError (convFailMsg v (errText e)))

/-- `sc.date` over an arbitrary strptime collaborator. The deprecated
`dateformat` keyword is mapped onto `outformat` (with a warning, which has
no effect on the value). A bare `None` input returns `None` (the outer
`Option`). -/
def dateWith (strp : Str → Str → Except Str PDateTime) (obj : PyInput)
    (args : List RawVal) (start_date : RawVal) (readformat : Option DFormat)
    (outformat0 : Option Str) (as_date : Bool) (dateformatKw : Option Str) :
    Except PyErr (Option (PyOutput DOut)) :=
  let outformat1 := match dateformatKw with | some f => some f | none => outformat0
  if obj = .scalar .pynone then .ok none
  else
    let outformat := outformat1.getD "%Y-%m-%d".toList
    let s := sanitizeIterables obj args
    (s.1.mapM (dateElemWith strp start_date readformat outformat as_date)).map
      (fun l => some (sanitizeOutput l s.2.1 s.2.2))

/-- `sc.date` with the real strptime. -/
def date (obj : PyInput) (args : List RawVal) (start_date : RawVal)
    (readformat : Option DFormat) (outformat0 : Option Str) (as_date : Bool)
    (dateformatKw : Option Str) : Except PyErr (Option (PyOutput DOut)) :=
  dateWith strptime obj args start_date readformat outformat0 as_date dateformatKw

/-! ## day -/

/-- The per-element failure message of `day`. -/
def dayFailMsg (v : RawVal) (inner : Str) : Str :=
  "Could not interpret \"".toList ++ reprVal v ++ "\" as a date: ".toList ++ inner

/-- Conversion of one date-like element of `day` (string via `readdate`,
timestamp truncated, date kept). -/
def dayElemConv (strp : Str → Str → Except Str PDateTime) (v : RawVal) :
    Except PyErr PDate :=
  match v with
  | .str s =>
    (readdateElemWith strp (formatListOf none) defaultFormats none (.str s)).map
      PDateTime.toDate
  | .dtime t => .ok t.toDate
  | .pdate p => .ok p
  | _ => .error (.typeError "unsupported".toList)

/-- Resolution of the `start_date` variable inside `day`'s loop: a truthy
value is converted via `date(start_date)`, otherwise January 1 of the
current element's own year is parsed from its f-string. -/
def dayStartResolve (strp : Str → Str → Except Str PDateTime) (sd : RawVal) (d : PDate) :
    Except PyErr PDate :=
  if pyTruthy sd then dateStartConv strp sd
  else dateStartConv strp (.str (intStr d.year ++ "-01-01".toList))

/-- The element loop of `day`, carrying the `start_date` variable, which the
loop itself overwrites: on the first date-like element with a falsy start,
`start_date` is set to January 1 of that element's year and stays set for
the remaining elements. -/
def dayLoop (strp : Str → Str → Except Str PDateTime) :
    List RawVal → RawVal → Except PyErr (List (Option Int))
  | [], _ => .ok []
  | v :: rest, sd =>
    match v with
    | .pynone => (dayLoop strp rest sd).map (fun l => none :: l)
    | .num n => (dayLoop strp rest sd).map (fun l => some n :: l)
    | v =>
      ((dayElemConv strp v).mapError
          (fun e => PyErr.valueError (dayFailMsg v (errText e)))).bind
        (fun d =>
          ((dayStartResolve strp sd d).mapError
              (fun e => PyErr.valueError (dayFailMsg (.pdate d) (errText e)))).bind
            (fun sd' => (dayLoop strp rest (.pdate sd')).map (fun l => some (d.sub sd') :: l)))

/-- `sc.day` over an arbitrary strptime collaborator. -/
def dayWith (strp : Str → Str → Except Str PDateTime) (obj : PyInput)
    (args : List RawVal) (start_date : RawVal) :
    Except PyErr (Option (PyOutput (Option Int))) :=
  if obj = .scalar .pynone then .ok none
  else
    let s := sanitizeIterables obj args
    (dayLoop strp s.1 start_date).map (fun l => some (sanitizeOutput l s.2.1 s.2.2))

/-- `sc.day` with the real strptime. -/
def day (obj : PyInput) (args : List RawVal) (start_date : RawVal) :
    Except PyErr (Option (PyOutput (Option Int))) :=
  dayWith strptime obj args start_date

/-! ## daterange and datedelta -/

/-- `sc.daterange`: compute the end day relative to the start, extend it by
one if inclusive, then convert `range(end_day)` back to dates via `date`. -/
def daterangeWith (strp : Str → Str → Except Str PDateTime)
    (start_date end_date : RawVal) (inclusive : Bool) (as_date : Bool)
    (dateformat : Option Str) : Except PyErr (Option (PyOutput DOut)) :=
  match dayWith strp (.scalar end_date) [] start_date with
  | .error e => .error e
  | .ok r =>
    match r with
    | some (.scalar (some e)) =>
      let e' := if inclusive then e + 1 else e
      let days := (List.range e'.toNat).map (fun i => RawVal.num (Int.ofNat i))
      dateWith strp (.list days) [] start_date none none as_date dateformat
    | _ => .error (.typeError "unsupported operand type for range".toList)

/-- `sc.daterange` with the real strptime. -/
def daterange (start_date end_date : RawVal) (inclusive : Bool) (as_date : Bool)
    (dateformat : Option Str) : Except PyErr (Option (PyOutput DOut)) :=
  daterangeWith strptime start_date end_date inclusive as_date dateformat

/-- `sc.datedelta`: parse the input via `readdate`, apply a relative delta,
and convert back via `date`; with `as_date` unset, a string input selects
string output. -/
def datedeltaWith (strp : Str → Str → Except Str PDateTime) (datestr : RawVal)
    (days months years weeks : Int) (as_date : Option Bool) :
    Except PyErr DOut :=
  let as_date1 : Option Bool :=
    match as_date, datestr with
    | none, .str _ => some false
    | a, _ => a
  match readdateWith strp (.scalar datestr) [] none with
  | .error e => .error e
  | .ok (.scalar t) =>
    let newdate := t.addRelativeDelta days months years weeks
    match dateWith strp (.scalar (.dtime newdate)) [] .pynone none none
        (as_date1 = some true) none with
    | .ok (some (.scalar out)) => .ok out
    | .ok _ => .error (.typeError "unexpected shape".toList)
    | .error e => .error e
  | .ok _ => .error (.typeError "unsupported operand type for relativedelta".toList)

/-- `sc.datedelta` with the real strptime. -/
def datedelta (datestr : RawVal) (days months years weeks : Int)
    (as_date : Option Bool) : Except PyErr DOut :=
  datedeltaWith strptime datestr days months years weeks as_date

/-! ## elapsedtimestr -/

/-- The `print_date` helper of `elapsedtimestr`: strftime with short or full
month name, optional year, and one leading zero of the day stripped. -/
def printDate (t : PDateTime) (includeyear shortmonths : Bool) : Str :=
  let fmt := "%d ".toList ++ (if shortmonths then "%b".toList else "%B".toList) ++
    (if includeyear then " %Y".toList else [])
  let ds := strftime fmt t
  match ds with
  | '0' :: rest => rest
  | ds => ds

/-- `sc.elapsedtimestr`, with the current instant `now_time` made an explicit
argument (the source reads `dt.datetime.now()`). The elapsed
`datetime.timedelta` is represented by its total signed microseconds; its
`.seconds` field is the seconds-within-day component and `.days` the whole
days, both by floor division. -/
def elapsedtimestr (pasttime : RawVal) (maxdays minseconds : Int)
    (shortmonths : Bool) (now_time : PDateTime) : Except PyErr Str :=
  let parsed : Except PyErr PDateTime :=
    match pasttime with
    | .str s =>
      match readdateWith strptime (.scalar (.str s)) [] none with
      | .ok (.scalar t) => .ok t
      | _ => .error (.valueError ("User supplied string ".toList ++ s ++
          " is not in a readable format.".toList))
    | .dtime t => .ok t
    | _ => .error (.typeError ("User-supplied value is neither a datetime object nor an ISO 8601 string.".toList))
  match parsed with
  | .error e => .error e
  | .ok past =>
    if past.toMicros > now_time.toMicros then
      .ok (printDate past (past.year ≠ now_time.year) shortmonths)
    else
      let el := now_time.toMicros - past.toMicros
      let elSecs := el / 1000000 % 86400
      let elDays := el / 86400000000
      if el < 60 * 1000000 then
        if elSecs ≤ minseconds then .ok "just now".toList
        else .ok (intStr elSecs ++ " secs ago".toList)
      else if el < 3600 * 1000000 then
        let minutes := elSecs / 60
        if minutes = 1 then .ok "a minute ago".toList
        else .ok (intStr minutes ++ " mins ago".toList)
      else if el < 86399 * 1000000 then
        let hours := elSecs / 3600
        if hours = 1 then .ok "1 hour ago".toList
        else .ok (intStr hours ++ " hours ago".toList)
      else if el < maxdays * 86400000000 then
        if elDays = 1 then .ok "yesterday".toList
        else .ok (intStr elDays ++ " days ago".toList)
      else
        .ok (printDate past (past.year ≠ now_time.year) shortmonths)

/-! ## tic/toc -/

/-- A parameter of a Python function signature. -/
structure Param where
  pname : Str
  hasDefault : Bool
deriving DecidableEq

/-- The parameter list of `toc` as written in the source:
`toc(start=None, output=False, label=None, sigfigs=None, filename=None,
reset=False, baselabel)`. -/
def tocParams : List Param :=
  [⟨"start".toList, true⟩, ⟨"output".toList, true⟩, ⟨"label".toList, true⟩,
   ⟨"sigfigs".toList, true⟩, ⟨"filename".toList, true⟩, ⟨"reset".toList, true⟩,
   ⟨"baselabel".toList, false⟩]

/-- Python's rule for a valid `def`: no parameter without a default may
follow one with a default. -/
def validDefParams : List Param → Bool
  | [] => true
  | p :: rest => if p.hasDefault then rest.all (·.hasDefault) else validDefParams rest

/-- A call with no arguments binds successfully iff every parameter has a
default. -/
def callableWithNoArgs (ps : List Param) : Bool := ps.all (·.hasDefault)

/-- The body semantics of `toc` (ignoring the unused extra parameter):
`elapsed = now - start`, where `start` is the explicit argument, else the
global `_tictime` stored by `tic`, else `0`; the elapsed value is returned
exactly when `output` is true, otherwise a formatted message is emitted to
the log file when one is given and to standard output otherwise. Times are
modelled as rationals (Python floats from `time.time()`), and the
significant-figures formatter `scp.sigfig` is an opaque collaborator. -/
inductive TocEffect where
  | returned (elapsed : ℚ)
  | toFile (filename : Str)
  | toStdout
deriving DecidableEq

def tocBody (now : ℚ) (tictime : Option ℚ) (start : Option ℚ) (output : Bool)
    (filename : Option Str) : ℚ × TocEffect :=
  let st := match start with
    | some s => s
    | none => match tictime with
      | some t => t
      | none => 0
  let elapsed := now - st
  if output then (elapsed, .returned elapsed)
  else match filename with
    | some f => (elapsed, .toFile f)
    | none => (elapsed, .toStdout)

end Sciris

deriving instance DecidableEq for Except

namespace Sciris

/-! ## Helper lemmas: digits, runs, formatting round trips -/

theorem digitChar_isDigit (k : Nat) (h : k < 10) : (Nat.digitChar k).isDigit = true := by
  interval_cases k <;> decide

theorem digitChar_toNat (k : Nat) (h : k < 10) : (Nat.digitChar k).toNat = 48 + k := by
  interval_cases k <;> decide

theorem digitChar_ne_o (k : Nat) (h : k < 10) : Nat.digitChar k ≠ 'o' := by
  interval_cases k <;> decide

theorem pad4_all_digits (y : Int) : ∀ c ∈ pad4 y, c.isDigit = true := by
  intro c hc
  rw [pad4] at hc
  simp only [List.mem_cons, List.mem_singleton] at hc
  rcases hc with h|h|h|h|h <;> first
    | (subst h; exact digitChar_isDigit _ (Nat.mod_lt _ (by norm_num)))
    | cases h

theorem pad2_all_digits (y : Int) : ∀ c ∈ pad2 y, c.isDigit = true := by
  intro c hc
  rw [pad2] at hc
  simp only [List.mem_cons, List.mem_singleton] at hc
  rcases hc with h|h|h <;> first
    | (subst h; exact digitChar_isDigit _ (Nat.mod_lt _ (by norm_num)))
    | cases h

theorem takeWhile_digits_append (ds : Str) (hds : ∀ c ∈ ds, c.isDigit = true)
    (c : Char) (hc : c.isDigit = false) (r : Str) :
    (ds ++ c :: r).takeWhile Char.isDigit = ds := by
  induction ds with
  | nil => simp [List.takeWhile, hc]
  | cons a t ih =>
    have ha : a.isDigit = true := hds a (List.mem_cons_self a t)
    simp only [List.cons_append, List.takeWhile, ha]
    show a :: List.takeWhile Char.isDigit (t ++ c :: r) = a :: t
    rw [ih (fun x hx => hds x (List.mem_cons_of_mem a hx))]

theorem takeWhile_digits_self (ds : Str) (hds : ∀ c ∈ ds, c.isDigit = true) :
    ds.takeWhile Char.isDigit = ds := by
  induction ds with
  | nil => rfl
  | cons a t ih =>
    have ha : a.isDigit = true := hds a (List.mem_cons_self a t)
    simp only [List.takeWhile, ha]
    rw [ih (fun x hx => hds x (List.mem_cons_of_mem a hx))]

theorem digitRun_append (cap : Nat) (ds : Str) (hds : ∀ c ∈ ds, c.isDigit = true)
    (hlen : ds.length ≤ cap) (c : Char) (hc : c.isDigit = false) (r : Str) :
    digitRun cap (ds ++ c :: r) = ds := by
  rw [digitRun, takeWhile_digits_append ds hds c hc r, List.take_of_length_le hlen]

theorem digitRun_self (cap : Nat) (ds : Str) (hds : ∀ c ∈ ds, c.isDigit = true)
    (hlen : ds.length ≤ cap) : digitRun cap ds = ds := by
  rw [digitRun, takeWhile_digits_self ds hds, List.take_of_length_le hlen]

theorem pad4_length (y : Int) : (pad4 y).length = 4 := rfl

theorem pad2_length (y : Int) : (pad2 y).length = 2 := rfl

theorem digitsVal_pad4 (y : Int) (h1 : 0 ≤ y) (h2 : y ≤ 9999) : digitsVal (pad4 y) = y := by
  rw [pad4, digitsVal]
  simp only [List.foldl]
  rw [digitChar_toNat _ (Nat.mod_lt _ (by norm_num)),
      digitChar_toNat _ (Nat.mod_lt _ (by norm_num)),
      digitChar_toNat _ (Nat.mod_lt _ (by norm_num)),
      digitChar_toNat _ (Nat.mod_lt _ (by norm_num))]
  have hk : y.toNat ≤ 9999 := by omega
  have hy : (y.toNat : Int) = y := by omega
  push_cast
  omega

theorem digitsVal_pad2 (y : Int) (h1 : 0 ≤ y) (h2 : y ≤ 99) : digitsVal (pad2 y) = y := by
  rw [pad2, digitsVal]
  simp only [List.foldl]
  rw [digitChar_toNat _ (Nat.mod_lt _ (by norm_num)),
      digitChar_toNat _ (Nat.mod_lt _ (by norm_num))]
  have hk : y.toNat ≤ 99 := by omega
  have hy : (y.toNat : Int) = y := by omega
  push_cast
  omega

theorem runFmt_nil_nil (tm : TM) : runFmt [] [] tm = .ok tm := rfl

theorem runFmt_lit (c c' : Char) (hc : c ≠ '%') (pr sr : Str) (tm : TM) :
    runFmt (c :: pr) (c' :: sr) tm =
      if lowerChar c = lowerChar c' then runFmt pr sr tm
      else .error "time data does not match format".toList := by
  conv_lhs => rw [runFmt.eq_def]
  simp only [if_neg hc]

theorem runFmt_Y (pr s : Str) (tm : TM) :
    runFmt ('%' :: 'Y' :: pr) s tm =
      if (digitRun 4 s).length = 4 then
        runFmt pr (s.drop 4) { tm with y := digitsVal (digitRun 4 s) }
      else .error "time data does not match format".toList := by
  conv_lhs => rw [runFmt.eq_def]
  simp only [reduceIte]

theorem runFmt_m (pr s : Str) (tm : TM) :
    runFmt ('%' :: 'm' :: pr) s tm =
      if (digitRun 2 s).length ≠ 0 ∧ 1 ≤ digitsVal (digitRun 2 s) ∧ digitsVal (digitRun 2 s) ≤ 12 then
        runFmt pr (s.drop (digitRun 2 s).length) { tm with m := digitsVal (digitRun 2 s) }
      else .error "time data does not match format".toList := by
  conv_lhs => rw [runFmt.eq_def]
  simp only [reduceIte]
  rw [if_neg (show ¬('m' = 'Y') from by decide)]

theorem runFmt_d (pr s : Str) (tm : TM) :
    runFmt ('%' :: 'd' :: pr) s tm =
      if (digitRun 2 s).length ≠ 0 ∧ 1 ≤ digitsVal (digitRun 2 s) ∧ digitsVal (digitRun 2 s) ≤ 31 then
        runFmt pr (s.drop (digitRun 2 s).length) { tm with d := digitsVal (digitRun 2 s) }
      else .error "time data does not match format".toList := by
  conv_lhs => rw [runFmt.eq_def]
  simp only [reduceIte]
  rw [if_neg (show ¬('d' = 'Y') from by decide), if_neg (show ¬('d' = 'm') from by decide)]

theorem daysInMonth_le_31 (y m : Int) : daysInMonth y m ≤ 31 := by
  rw [daysInMonth]
  split
  · split <;> omega
  · split <;> omega

theorem strptime_ymd (y m d : Int) (hy1 : 1000 ≤ y) (hy2 : y ≤ 9999)
    (hm1 : 1 ≤ m) (hm2 : m ≤ 12) (hd1 : 1 ≤ d) (hd2 : d ≤ daysInMonth y m) :
    strptime (pad4 y ++ '-' :: (pad2 m ++ '-' :: pad2 d)) "%Y-%m-%d".toList =
      .ok ⟨y, m, d, 0, 0, 0, 0⟩ := by
  have hd31 : d ≤ 31 := le_trans hd2 (daysInMonth_le_31 y m)
  have e1 : digitRun 4 (pad4 y ++ '-' :: (pad2 m ++ '-' :: pad2 d)) = pad4 y :=
    digitRun_append 4 _ (pad4_all_digits y) (by rw [pad4_length]) '-' (by decide) _
  have e2 : (pad4 y ++ '-' :: (pad2 m ++ '-' :: pad2 d)).drop 4 = '-' :: (pad2 m ++ '-' :: pad2 d) := by
    conv_lhs => rw [show (4:Nat) = (pad4 y).length from rfl]
    exact List.drop_left _ _
  have e3 : digitRun 2 (pad2 m ++ '-' :: pad2 d) = pad2 m :=
    digitRun_append 2 _ (pad2_all_digits m) (by rw [pad2_length]) '-' (by decide) _
  have e4 : (pad2 m ++ '-' :: pad2 d).drop 2 = '-' :: pad2 d := by
    conv_lhs => rw [show (2:Nat) = (pad2 m).length from rfl]
    exact List.drop_left _ _
  have e5 : digitRun 2 (pad2 d) = pad2 d :=
    digitRun_self 2 _ (pad2_all_digits d) (by rw [pad2_length])
  have e6 : (pad2 d).drop 2 = [] := by
    conv_lhs => rw [show (2:Nat) = (pad2 d).length from rfl]
    exact List.drop_length _
  have v1 : digitsVal (pad4 y) = y := digitsVal_pad4 y (by omega) (by omega)
  have v2 : digitsVal (pad2 m) = m := digitsVal_pad2 m (by omega) (by omega)
  have v3 : digitsVal (pad2 d) = d := digitsVal_pad2 d (by omega) (by omega)
  rw [strptime]
  rw [show "%Y-%m-%d".toList = '%' :: 'Y' :: '-' :: '%' :: 'm' :: '-' :: '%' :: 'd' :: [] from rfl]
  rw [runFmt_Y, e1, v1, pad4_length, if_pos rfl, e2]
  rw [runFmt_lit '-' '-' (by decide), if_pos rfl]
  rw [runFmt_m, e3, v2, pad2_length]
  rw [if_pos (⟨by omega, hm1, hm2⟩ : (2:Nat) ≠ 0 ∧ 1 ≤ m ∧ m ≤ 12)]
  rw [e4]
  rw [runFmt_lit '-' '-' (by decide), if_pos rfl]
  rw [runFmt_d, e5, v3, pad2_length]
  rw [if_pos (⟨by omega, hd1, hd31⟩ : (2:Nat) ≠ 0 ∧ 1 ≤ d ∧ d ≤ 31)]
  rw [e6, runFmt_nil_nil]
  show (if 1 ≤ y ∧ y ≤ 9999 ∧ 1 ≤ m ∧ m ≤ 12 ∧ 1 ≤ d ∧ d ≤ daysInMonth y m ∧
      0 ≤ (0:Int) ∧ (0:Int) ≤ 23 ∧ 0 ≤ (0:Int) ∧ (0:Int) ≤ 59 ∧ 0 ≤ (0:Int) ∧ (0:Int) ≤ 59 then
      Except.ok (⟨y,m,d,0,0,0,0⟩ : PDateTime)
    else .error "date value out of range".toList) = .ok ⟨y,m,d,0,0,0,0⟩
  rw [if_pos ⟨hy1.trans' (by omega), hy2, hm1, hm2, hd1, hd2, le_refl 0, by omega, le_refl 0,
    by omega, le_refl 0, by omega⟩]


theorem intStr4 (y : Int) (h1 : 1000 ≤ y) (h2 : y ≤ 9999) : intStr y = pad4 y := by
  rw [intStr, if_neg (by omega)]
  have hy : 1000 ≤ y.toNat ∧ y.toNat ≤ 9999 := by omega
  rw [natStr]
  rw [natDigitsAux, if_neg (by omega)]
  rw [natDigitsAux, if_neg (by omega)]
  rw [natDigitsAux, if_neg (by omega)]
  rw [natDigitsAux, if_pos (by omega)]
  have c1 : y.toNat / 10 / 10 / 10 = y.toNat / 1000 % 10 := by omega
  have c2 : y.toNat / 10 / 10 % 10 = y.toNat / 100 % 10 := by omega
  have c3 : y.toNat / 10 % 10 = y.toNat / 10 % 10 := rfl
  rw [c1, c2]
  rw [pad4]
  simp [List.cons_append, List.nil_append]

theorem strftime_ymd_fmt (t : PDateTime) :
    strftime "%Y-%m-%d".toList t = pad4 t.year ++ '-' :: (pad2 t.month ++ '-' :: pad2 t.day) := by
  rfl

theorem strftime_db_fmt (t : PDateTime) :
    strftime "%d %b".toList t = pad2 t.day ++ ' ' :: monthAbbrevs.getD (t.month.toNat - 1) [] := by
  show pad2 t.day ++ strftime " %b".toList t = _
  show pad2 t.day ++ ' ' :: strftime "%b".toList t = _
  show pad2 t.day ++ ' ' :: (monthAbbrevs.getD (t.month.toNat - 1) [] ++ []) = _
  rw [List.append_nil]

theorem mapM_ok {α β : Type} (f : α → Except PyErr β) :
    ∀ (l : List α) (g : α → β), (∀ a ∈ l, f a = .ok (g a)) → l.mapM f = .ok (l.map g) := by
  intro l
  induction l with
  | nil => intro g _; rfl
  | cons a t ih =>
    intro g h
    rw [List.mapM_cons, h a (List.mem_cons_self a t), List.map_cons]
    have := ih g (fun x hx => h x (List.mem_cons_of_mem a hx))
    rw [this]
    rfl


/-- Scalar `readdate` reduces to the single-element conversion. -/
theorem readdate_scalar_elem (strp : Str → Str → Except Str PDateTime)
    (df : Option DFormat) (v : RawVal) (hv : v ≠ .pynone) :
    readdateWith strp (.scalar v) [] df =
      (readdateElemWith strp (formatListOf df) (formatsToTry df) df v).map
        (fun t => .scalar t) := by
  have hs : sanitizeIterables (.scalar v) [] = ([v], false, false) := by
    cases v with
    | pynone => exact absurd rfl hv
    | num n => rfl
    | str s => rfl
    | dtime t => rfl
    | pdate d => rfl
  rw [readdateWith, hs]
  cases h : readdateElemWith strp (formatListOf df) (formatsToTry df) df v with
  | ok t =>
    simp [List.mapM, List.mapM.loop, h, sanitizeOutput, Except.map, Except.bind, Except.pure]
  | error e =>
    simp [List.mapM, List.mapM.loop, h, Except.map, Except.bind, Except.pure]

/-- The numeric branch of a `readdate` element under a single unrecognized
mode string. -/
theorem readdateElem_num_other (strp : Str → Str → Except Str PDateTime)
    (cat : List (Str × Str)) (df : Option DFormat) (n : Int) (mode : Str)
    (h1 : mode ≠ "posix".toList) (h2 : mode ≠ "ordinal".toList)
    (h3 : mode ≠ "matplotlib".toList) :
    readdateElemWith strp [some mode] cat df (.num n) =
      .error (.valueError (numModeErrMsg n [some mode])) := by
  rw [readdateElemWith]
  rw [if_neg, if_neg]
  · intro h
    rcases h with h | h
    · rw [List.mem_singleton] at h
      exact h2 (Option.some_inj.mp h).symm
    · rw [List.mem_singleton] at h
      exact h3 (Option.some_inj.mp h).symm
  · intro h
    rcases h with h | h
    · rw [List.mem_singleton] at h
      exact h1 (Option.some_inj.mp h).symm
    · rw [List.mem_singleton] at h
      cases h


theorem numModeErrMsg_head (n : Int) (fl : List (Option Str)) :
    (numModeErrMsg n fl).head? = some 'C' := rfl

theorem parseFailMsg_head (v : RawVal) (cat : List (Str × Str)) (df : Option DFormat) :
    (parseFailMsg v cat df).head? = some 'W' := rfl

/-- Claim C7: for every numeric element given to readdate, an unset
dateformat means POSIX-timestamp interpretation, 'posix' likewise,
'ordinal'/'matplotlib' mean ordinal-day interpretation, and any other mode
string fails with the ambiguous-numeric-mode usage error, whose message is
distinct from every parse-exhausted message. -/
theorem c7_numeric_modes (n : Int) :
    readdate (.scalar (.num n)) [] none = .ok (.scalar (fromtimestamp n)) ∧
    readdate (.scalar (.num n)) [] (some (.one "posix".toList)) = .ok (.scalar (fromtimestamp n)) ∧
    readdate (.scalar (.num n)) [] (some (.one "ordinal".toList)) = .ok (.scalar (num2date n)) ∧
    readdate (.scalar (.num n)) [] (some (.one "matplotlib".toList)) = .ok (.scalar (num2date n)) ∧
    (∀ mode : Str, mode ≠ "posix".toList → mode ≠ "ordinal".toList → mode ≠ "matplotlib".toList →
      readdate (.scalar (.num n)) [] (some (.one mode)) =
        .error (.valueError (numModeErrMsg n [some mode]))) ∧
    (∀ (v : RawVal) (cat : List (Str × Str)) (df : Option DFormat) (mode : Str),
      numModeErrMsg n [some mode] ≠ parseFailMsg v cat df) := by
  refine ⟨rfl, rfl, rfl, rfl, ?_, ?_⟩
  · intro mode h1 h2 h3
    rw [readdate, readdate_scalar_elem strptime _ _ (fun h => by cases h)]
    rw [show formatListOf (some (.one mode)) = [some mode] from rfl]
    rw [readdateElem_num_other strptime _ _ n mode h1 h2 h3]
    rfl
  · intro v cat df mode h
    have h2 := congrArg List.head? h
    rw [numModeErrMsg_head, parseFailMsg_head] at h2
    exact absurd (Option.some_inj.mp h2) (by decide)


/-- Witness for C7 at a concrete input. -/
theorem c7_witness :
    readdate (.scalar (.num 12345)) [] (some (.one "bogus".toList)) =
      .error (.valueError (numModeErrMsg 12345 [some "bogus".toList])) ∧
    numModeErrMsg 12345 [some "bogus".toList] ≠
      parseFailMsg (.num 12345) defaultFormats none :=
  ⟨(c7_numeric_modes 12345).2.2.2.2.1 "bogus".toList (by decide) (by decide) (by decide),
   (c7_numeric_modes 12345).2.2.2.2.2 _ _ _ _⟩

/-- Counterexample to claim C2 as stated. -/
theorem c2_counterexample :
    readdate (.scalar (.str "04-03-2020".toList)) [] (some (.one "dmy".toList)) =
      .ok (.scalar ⟨2020, 3, 4, 0, 0, 0, 0⟩) ∧
    readdate (.scalar (.str "04-03-2020".toList)) [] (some (.one "dmy".toList)) ≠
      .ok (.scalar ⟨2020, 4, 3, 0, 0, 0, 0⟩) := by
  constructor
  · decide
  · decide

/-- Claim C2 amended. -/
theorem c2_amended :
    readdate (.scalar (.str "2020-03-03".toList)) [] none =
      .ok (.scalar ⟨2020, 3, 3, 0, 0, 0, 0⟩) ∧
    readdate (.scalar (.str "04-03-2020".toList)) [] (some (.one "dmy".toList)) =
      .ok (.scalar ⟨2020, 3, 4, 0, 0, 0, 0⟩) := by
  constructor
  · decide
  · decide

/-- Counterexample to claim C1 as stated. -/
theorem c1_counterexample :
    readdate (.list [.str "2020-03-03".toList, .pynone]) [] none =
      .error (.valueError (parseFailMsg .pynone defaultFormats none)) := by
  decide

/-- Counterexample to claim C3 as stated. -/
theorem c3_counterexample :
    day (.list [.str "2020-06-01".toList, .str "2021-06-01".toList]) [] .pynone =
      .ok (some (.list [some 152, some 517])) ∧
    PDate.sub ⟨2021, 6, 1⟩ ⟨2021, 1, 1⟩ = 151 ∧ (517 : Int) ≠ 151 := by
  refine ⟨by decide, by decide, by decide⟩

/-- Counterexample to claim C8 as stated. -/
theorem c8_counterexample :
    datedelta (.str "2020-03-21 14:35:21".toList) 1 0 0 0 none =
      .ok (.dstr "2020-03-22".toList) ∧
    datedelta (.str "2020-03-22".toList) (-1) 0 0 0 none =
      .ok (.dstr "2020-03-21".toList) ∧
    "2020-03-21".toList ≠ "2020-03-21 14:35:21".toList := by
  refine ⟨by decide, by decide, by decide⟩

/-- Counterexample to claim C10 as stated. -/
theorem c10_counterexample :
    readdate (.scalar (.str "posix".toList)) [] (some (.one "posix".toList)) =
      .ok (.scalar ⟨1900, 1, 1, 0, 0, 0, 0⟩) := by
  decide

/-- Claim C5 (code bug): toc's parameter list. -/
theorem c5_toc :
    validDefParams tocParams = false ∧
    callableWithNoArgs tocParams = false ∧
    (∀ (now st : ℚ) (tt : Option ℚ) (f : Option Str),
      tocBody now tt (some st) true f = (now - st, .returned (now - st))) ∧
    (∀ (now t0 : ℚ) (f : Option Str),
      tocBody now (some t0) none true f = (now - t0, .returned (now - t0))) ∧
    (∀ (now : ℚ) (f : Option Str),
      tocBody now none none true f = (now - 0, .returned (now - 0))) ∧
    (∀ (now : ℚ) (tt st : Option ℚ) (fn : Str),
      (tocBody now tt st false (some fn)).2 = .toFile fn) ∧
    (∀ (now : ℚ) (tt st : Option ℚ),
      (tocBody now tt st false none).2 = .toStdout) := by
  refine ⟨by decide, by decide, fun now st tt f => rfl, fun now t0 f => rfl,
    fun now f => rfl, fun now tt st fn => ?_, fun now tt st => ?_⟩
  · cases st <;> cases tt <;> rfl
  · cases st <;> cases tt <;> rfl


theorem day_scalar_pdate (strp : Str → Str → Except Str PDateTime) (a b : PDate) :
    dayWith strp (.scalar (.pdate b)) [] (.pdate a) =
      .ok (some (.scalar (some (b.sub a)))) := rfl

theorem dateElem_range_num (strp : Str → Str → Except Str PDateTime) (a : PDate) (i : Int) :
    dateElemWith strp (.pdate a) none "%Y-%m-%d".toList false (.num i) =
      .ok (.dstr ((a.addDays i).strftime "%Y-%m-%d".toList)) := rfl

theorem date_range_list (strp : Str → Str → Except Str PDateTime) (a : PDate) (k : Nat) :
    dateWith strp (.list ((List.range k).map (fun i => RawVal.num (Int.ofNat i)))) [] (.pdate a)
        none none false none =
      .ok (some (.list ((List.range k).map
        (fun i => DOut.dstr ((a.addDays (Int.ofNat i)).strftime "%Y-%m-%d".toList))))) := by
  have hs : sanitizeIterables (.list ((List.range k).map (fun i => RawVal.num (Int.ofNat i)))) [] =
      ((List.range k).map (fun i => RawVal.num (Int.ofNat i)), true, false) := by
    rw [sanitizeIterables]
    simp
  have hm := mapM_ok (dateElemWith strp (.pdate a) none "%Y-%m-%d".toList false)
    ((List.range k).map (fun i => RawVal.num (Int.ofNat i)))
    (fun v => match v with
      | .num i => DOut.dstr ((a.addDays i).strftime "%Y-%m-%d".toList)
      | _ => DOut.dnone)
    (by
      intro v hv
      rw [List.mem_map] at hv
      obtain ⟨i, _, rfl⟩ := hv
      rfl)
  simp only [dateWith]
  rw [if_neg (fun h => by cases h)]
  rw [hs]
  simp only [Option.getD_none]
  rw [hm]
  rw [List.map_map]
  rfl

/-- Claim C4: for date values a ≤ b, daterange(a, b, inclusive=true) has
length day(b, start_date=a) + 1 and daterange(a, b, inclusive=false) has
length day(b, start_date=a), where day(b, start_date=a) is the day
difference b - a. -/
theorem c4_daterange_len (a b : PDate) (h : a.toordinal ≤ b.toordinal) :
    day (.scalar (.pdate b)) [] (.pdate a) = .ok (some (.scalar (some (b.sub a)))) ∧
    (∃ l, daterange (.pdate a) (.pdate b) true false none = .ok (some (.list l)) ∧
      (l.length : Int) = b.sub a + 1) ∧
    (∃ l, daterange (.pdate a) (.pdate b) false false none = .ok (some (.list l)) ∧
      (l.length : Int) = b.sub a) := by
  have hsub : 0 ≤ b.sub a := by
    rw [PDate.sub]
    omega
  refine ⟨rfl, ?_, ?_⟩
  · rw [daterange, daterangeWith, day_scalar_pdate]
    simp only [if_true]
    rw [date_range_list]
    refine ⟨_, rfl, ?_⟩
    rw [List.length_map, List.length_range]
    omega
  · rw [daterange, daterangeWith, day_scalar_pdate]
    simp only [Bool.false_eq_true, if_false]
    rw [date_range_list]
    refine ⟨_, rfl, ?_⟩
    rw [List.length_map, List.length_range]
    omega


/-- Witness for C4 at concrete dates (March 1 to March 3, 2020). -/
theorem c4_witness :
    (⟨2020, 3, 1⟩ : PDate).toordinal ≤ (⟨2020, 3, 3⟩ : PDate).toordinal ∧
    (day (.scalar (.pdate ⟨2020, 3, 3⟩)) [] (.pdate ⟨2020, 3, 1⟩) =
        .ok (some (.scalar (some (PDate.sub ⟨2020, 3, 3⟩ ⟨2020, 3, 1⟩)))) ∧
      (∃ l, daterange (.pdate ⟨2020, 3, 1⟩) (.pdate ⟨2020, 3, 3⟩) true false none =
          .ok (some (.list l)) ∧
        (l.length : Int) = PDate.sub ⟨2020, 3, 3⟩ ⟨2020, 3, 1⟩ + 1) ∧
      (∃ l, daterange (.pdate ⟨2020, 3, 1⟩) (.pdate ⟨2020, 3, 3⟩) false false none =
          .ok (some (.list l)) ∧
        (l.length : Int) = PDate.sub ⟨2020, 3, 3⟩ ⟨2020, 3, 1⟩)) :=
  ⟨by decide, c4_daterange_len ⟨2020, 3, 1⟩ ⟨2020, 3, 3⟩ (by decide)⟩

theorem daysInMonth_jan (y : Int) : daysInMonth y 1 = 31 := by
  rw [daysInMonth]
  norm_num

/-- The first default format accepts a string and short-circuits the loop. -/
theorem readdateElem_default_first (strp : Str → Str → Except Str PDateTime)
    (s : Str) (t : PDateTime) (h : strp s "%Y-%m-%d".toList = .ok t) :
    readdateElemWith strp (formatListOf none) defaultFormats none (.str s) = .ok t := by
  show (match tryFormats strp (.str s) defaultFormats [] with
    | (some t, _) => Except.ok t
    | (none, _) => Except.error (PyErr.valueError (parseFailMsg (.str s) defaultFormats none))) = .ok t
  rw [show defaultFormats = ("date".toList, "%Y-%m-%d".toList) :: defaultFormats.tail from rfl]
  rw [tryFormats]
  rw [show attemptParse strp (.str s) "%Y-%m-%d".toList = strp s "%Y-%m-%d".toList from rfl, h]

/-- Parsing the f-string `f'{year}-01-01'` built by `day` yields January 1
of that year. -/
theorem readdate_jan1 (y : Int) (h1 : 1000 ≤ y) (h2 : y ≤ 9999) :
    readdateElemWith strptime (formatListOf none) defaultFormats none
      (.str (intStr y ++ "-01-01".toList)) = .ok ⟨y, 1, 1, 0, 0, 0, 0⟩ := by
  apply readdateElem_default_first
  have hfmt : intStr y ++ "-01-01".toList = pad4 y ++ '-' :: (pad2 1 ++ '-' :: pad2 1) := by
    rw [intStr4 y h1 h2]
    rfl
  rw [hfmt]
  exact strptime_ymd y 1 1 h1 h2 (by norm_num) (by norm_num) (by norm_num)
    (by rw [daysInMonth_jan]; norm_num)

theorem dayStartResolve_jan1 (y : Int) (m d : Int) (h1 : 1000 ≤ y) (h2 : y ≤ 9999) :
    dayStartResolve strptime .pynone ⟨y, m, d⟩ = .ok ⟨y, 1, 1⟩ := by
  rw [dayStartResolve]
  rw [if_neg (by decide)]
  rw [dateStartConv]
  rw [show (⟨y, m, d⟩ : PDate).year = y from rfl]
  rw [readdate_jan1 y h1 h2]
  rfl


theorem dayLoop_pdates (p : PDate) (ds : List PDate) :
    dayLoop strptime (ds.map RawVal.pdate) (.pdate p) =
      .ok (ds.map (fun d => some (d.sub p))) := by
  induction ds with
  | nil => rfl
  | cons d t ih =>
    rw [List.map_cons, dayLoop]
    rotate_left
    · intro h; cases h
    · intro n h; cases h
    rw [show dayElemConv strptime (.pdate d) = .ok d from rfl]
    simp only [Except.mapError, Except.bind]
    rw [show dayStartResolve strptime (.pdate p) d = .ok p from rfl]
    simp only [Except.mapError, Except.bind, ih, Except.map, List.map_cons]

theorem day_scalar_ownyear (d : PDate) (h1 : 1000 ≤ d.year) (h2 : d.year ≤ 9999) :
    day (.scalar (.pdate d)) [] .pynone =
      .ok (some (.scalar (some (d.sub ⟨d.year, 1, 1⟩)))) := by
  rw [day, dayWith]
  rw [if_neg (fun h => by simp at h)]
  show Except.map (fun l => some (sanitizeOutput l false false))
    (dayLoop strptime [RawVal.pdate d] RawVal.pynone) = _
  rw [dayLoop]
  rotate_left
  · intro h; cases h
  · intro n h; cases h
  rw [show dayElemConv strptime (.pdate d) = .ok d from rfl]
  simp only [Except.mapError, Except.bind]
  rw [show d = (⟨d.year, d.month, d.day⟩ : PDate) from rfl]
  rw [dayStartResolve_jan1 d.year d.month d.day h1 h2]
  simp only [Except.mapError, Except.bind, Except.map, dayLoop, sanitizeOutput]
  rfl



/-- Claim C3 (amended): a scalar date-like element with start_date omitted
is measured from January 1 of its own year; in a sequence, the first
date-like element is measured from January 1 of its own year and every
subsequent element is measured from that same baseline (the loop overwrites
start_date), not from its own year's January 1. -/
theorem c3_day_baseline (d : PDate) (ds : List PDate)
    (h1 : 1000 ≤ d.year) (h2 : d.year ≤ 9999) :
    day (.scalar (.pdate d)) [] .pynone =
      .ok (some (.scalar (some (d.sub ⟨d.year, 1, 1⟩)))) ∧
    day (.list ((d :: ds).map RawVal.pdate)) [] .pynone =
      .ok (some (.list (some (d.sub ⟨d.year, 1, 1⟩) ::
        ds.map (fun e => some (e.sub ⟨d.year, 1, 1⟩))))) := by
  refine ⟨day_scalar_ownyear d h1 h2, ?_⟩
  rw [day, dayWith]
  rw [if_neg (fun h => by simp at h)]
  have hs : sanitizeIterables (.list ((d :: ds).map RawVal.pdate)) [] =
      ((d :: ds).map RawVal.pdate, true, false) := by
    rw [sanitizeIterables]
    simp
  rw [hs]
  show Except.map (fun l => some (sanitizeOutput l true false))
    (dayLoop strptime ((d :: ds).map RawVal.pdate) RawVal.pynone) = _
  rw [List.map_cons, dayLoop]
  rotate_left
  · intro h; cases h
  · intro n h; cases h
  rw [show dayElemConv strptime (.pdate d) = .ok d from rfl]
  simp only [Except.mapError, Except.bind]
  rw [show d = (⟨d.year, d.month, d.day⟩ : PDate) from rfl]
  rw [dayStartResolve_jan1 d.year d.month d.day h1 h2]
  simp only [Except.mapError, Except.bind]
  rw [dayLoop_pdates]
  simp only [Except.map, sanitizeOutput]
  rfl

/-- Witness for C3's amended theorem. -/
theorem c3_witness :
    (1000 : Int) ≤ (⟨2020, 6, 1⟩ : PDate).year ∧ (⟨2020, 6, 1⟩ : PDate).year ≤ 9999 ∧
    (day (.scalar (.pdate ⟨2020, 6, 1⟩)) [] .pynone =
        .ok (some (.scalar (some (PDate.sub ⟨2020, 6, 1⟩ ⟨2020, 1, 1⟩)))) ∧
      day (.list (([⟨2020, 6, 1⟩, ⟨2021, 6, 1⟩] : List PDate).map RawVal.pdate)) [] .pynone =
        .ok (some (.list (some (PDate.sub ⟨2020, 6, 1⟩ ⟨2020, 1, 1⟩) ::
          ([⟨2021, 6, 1⟩] : List PDate).map (fun e => some (e.sub ⟨2020, 1, 1⟩)))))) :=
  ⟨by decide, by decide, c3_day_baseline ⟨2020, 6, 1⟩ [⟨2021, 6, 1⟩] (by decide) (by decide)⟩


/-- The error text of a failed attempt (the loop never stores a success). -/
def errOf : Except Str PDateTime → Str
  | .error e => e
  | .ok _ => []

/-- A strptime collaborator that always fails with one reason. -/
def oracleA : Str → Str → Except Str PDateTime := fun _ _ => .error "reason A".toList

/-- A strptime collaborator that always fails with another reason. -/
def oracleB : Str → Str → Except Str PDateTime := fun _ _ => .error "reason B".toList

/-- Counterexample to claim C6 as stated: two runs whose underlying
per-format failure reasons differ produce identical raised errors, so the
error cannot carry the per-format reasons; those live only in the local
`exceptions` mapping. -/
theorem c6_counterexample :
    (tryFormats oracleA (.str "x".toList) defaultFormats []).2 ≠
      (tryFormats oracleB (.str "x".toList) defaultFormats []).2 ∧
    readdateWith oracleA (.scalar (.str "x".toList)) [] none =
      readdateWith oracleB (.scalar (.str "x".toList)) [] none ∧
    readdateWith oracleA (.scalar (.str "x".toList)) [] none =
      .error (.valueError (parseFailMsg (.str "x".toList) defaultFormats none)) := by
  refine ⟨by decide, by decide, by decide⟩

theorem tryFormats_all_fail (strp : Str → Str → Except Str PDateTime) (v : RawVal) :
    ∀ (cat exc : List (Str × Str)),
    (∀ kf ∈ cat, (attemptParse strp v kf.2).toOption = none) →
    tryFormats strp v cat exc =
      (none, exc ++ cat.map (fun kf => (kf.1, errOf (attemptParse strp v kf.2)))) := by
  intro cat
  induction cat with
  | nil => intro exc _; simp [tryFormats]
  | cons kf rest ih =>
    intro exc h
    obtain ⟨k, f⟩ := kf
    rw [tryFormats]
    cases hA : attemptParse strp v f with
    | ok t =>
      have := h (k, f) (List.mem_cons_self _ _)
      rw [hA] at this
      cases this
    | error e =>
      have step := ih (exc ++ [(k, e)]) (fun x hx => h x (List.mem_cons_of_mem _ hx))
      show tryFormats strp v rest (exc ++ [(k, e)]) = _
      rw [step, List.map_cons]
      show (none, (exc ++ [(k, e)]) ++ _) = (none, exc ++ ((k, errOf (attemptParse strp v f)) :: _))
      rw [hA]
      simp [List.append_assoc, errOf]

/-- Claim C6 (amended): when a string element matches no pattern of the
active catalog, a single error is raised only after every candidate has
been tried (the loop result is `none` and the exceptions mapping has one
entry per catalog format, keyed by format identifier, in order), and that
error carries the full list of attempted formats via its message — but not
the per-attempt failure reasons, which stay in the discarded local
mapping. -/
theorem c6_exhaustive (strp : Str → Str → Except Str PDateTime) (s : Str)
    (df : Option DFormat)
    (hfail : ∀ kf ∈ formatsToTry df, (attemptParse strp (.str s) kf.2).toOption = none) :
    (tryFormats strp (.str s) (formatsToTry df) []).1 = none ∧
    (tryFormats strp (.str s) (formatsToTry df) []).2.map Prod.fst =
      (formatsToTry df).map Prod.fst ∧
    readdateWith strp (.scalar (.str s)) [] df =
      .error (.valueError (parseFailMsg (.str s) (formatsToTry df) df)) := by
  have key := tryFormats_all_fail strp (.str s) (formatsToTry df) [] hfail
  refine ⟨by rw [key], ?_, ?_⟩
  · rw [key]
    simp [List.map_map]
  · rw [readdate_scalar_elem strp df _ (fun h => by cases h)]
    show Except.map _ (match tryFormats strp (.str s) (formatsToTry df) [] with
      | (some t, _) => Except.ok t
      | (none, _) => Except.error (PyErr.valueError (parseFailMsg (.str s) (formatsToTry df) df))) = _
    rw [key]
    rfl

/-- Witness for C6's amended theorem at a concrete unparseable string. -/
theorem c6_witness :
    (∀ kf ∈ formatsToTry (none : Option DFormat),
      (attemptParse strptime (.str "not-a-date".toList) kf.2).toOption = none) ∧
    ((tryFormats strptime (.str "not-a-date".toList) (formatsToTry none) []).1 = none ∧
      (tryFormats strptime (.str "not-a-date".toList) (formatsToTry none) []).2.map Prod.fst =
        (formatsToTry none).map Prod.fst ∧
      readdateWith strptime (.scalar (.str "not-a-date".toList)) [] none =
        .error (.valueError (parseFailMsg (.str "not-a-date".toList) (formatsToTry none) none))) :=
  ⟨by decide, c6_exhaustive strptime "not-a-date".toList none (by decide)⟩


theorem runFmt_cons_nil (c : Char) (pr : Str) (tm : TM) (hc : c ≠ '%') :
    runFmt (c :: pr) [] tm = .error "time data does not match format".toList := by
  conv_lhs => rw [runFmt.eq_def]
  simp only [if_neg hc]

theorem runFmt_literal_ok (pat : Str) (hp : '%' ∉ pat) :
    ∀ (s : Str) (tm tm' : TM), runFmt pat s tm = .ok tm' →
      s.map lowerChar = pat.map lowerChar := by
  induction pat with
  | nil =>
    intro s tm tm' h
    cases s with
    | nil => rfl
    | cons c r => simp [runFmt] at h
  | cons c pr ih =>
    intro s tm tm' h
    have hc : c ≠ '%' := fun e => hp (e ▸ List.mem_cons_self c pr)
    have hp' : '%' ∉ pr := fun hm => hp (List.mem_cons_of_mem c hm)
    cases s with
    | nil => rw [runFmt_cons_nil c pr tm hc] at h; cases h
    | cons c' sr =>
      rw [runFmt_lit c c' hc] at h
      by_cases hcc : lowerChar c = lowerChar c'
      · rw [if_pos hcc] at h
        rw [List.map_cons, List.map_cons, hcc, ih hp' sr tm tm' h]
      · rw [if_neg hcc] at h
        cases h

/-- The user-supplied catalog of a mode string other than dmy/mdy. -/
theorem formatsToTry_user (mode : Str) (h1 : mode ≠ "dmy".toList) (h2 : mode ≠ "mdy".toList) :
    formatsToTry (some (.one mode)) = [(userKey 0, mode)] := by
  rw [formatsToTry]
  rw [if_neg (fun h => h1 (by injection h)), if_neg (fun h => h2 (by injection h))]
  rfl

/-- Claim C10 (amended): a dateformat of 'posix', 'ordinal' or 'matplotlib'
replaces the whole catalog with itself as the single literal user-supplied
pattern, so every string element other than a case variant of the mode
string — in particular every string the default chain would parse — fails
with the parse-exhausted error (the `IGNORECASE`-compiled pattern matches
the mode string and its case variants, e.g. readdate('POSIX',
dateformat='posix') succeeds and returns 1900-01-01), while numeric
elements follow the mode's interpretation. -/
theorem c10_mode_replaces_catalog :
    (formatsToTry (some (.one "posix".toList)) = [(userKey 0, "posix".toList)] ∧
     formatsToTry (some (.one "ordinal".toList)) = [(userKey 0, "ordinal".toList)] ∧
     formatsToTry (some (.one "matplotlib".toList)) = [(userKey 0, "matplotlib".toList)]) ∧
    (∀ (mode s : Str), '%' ∉ mode → mode ≠ "dmy".toList → mode ≠ "mdy".toList →
      s.map lowerChar ≠ mode.map lowerChar →
      readdateWith strptime (.scalar (.str s)) [] (some (.one mode)) =
        .error (.valueError (parseFailMsg (.str s) [(userKey 0, mode)] (some (.one mode))))) ∧
    readdate (.scalar (.str "POSIX".toList)) [] (some (.one "posix".toList)) =
      .ok (.scalar ⟨1900, 1, 1, 0, 0, 0, 0⟩) ∧
    (∀ n : Int,
      readdate (.scalar (.num n)) [] (some (.one "posix".toList)) =
        .ok (.scalar (fromtimestamp n)) ∧
      readdate (.scalar (.num n)) [] (some (.one "ordinal".toList)) =
        .ok (.scalar (num2date n)) ∧
      readdate (.scalar (.num n)) [] (some (.one "matplotlib".toList)) =
        .ok (.scalar (num2date n))) := by
  refine ⟨⟨by decide, by decide, by decide⟩, ?_, by decide, fun n => ⟨rfl, rfl, rfl⟩⟩
  intro mode s hpct hdmy hmdy hs
  rw [readdate_scalar_elem strptime _ _ (fun h => by cases h)]
  rw [formatsToTry_user mode hdmy hmdy]
  show Except.map _ (match tryFormats strptime (.str s) [(userKey 0, mode)] [] with
    | (some t, _) => Except.ok t
    | (none, _) =>
      Except.error (PyErr.valueError (parseFailMsg (.str s) [(userKey 0, mode)]
        (some (.one mode))))) = _
  rw [tryFormats]
  cases hR : runFmt mode s tmDefault with
  | ok tm => exact absurd (runFmt_literal_ok mode hpct s tmDefault tm hR) hs
  | error e =>
    rw [show attemptParse strptime (.str s) mode = strptime s mode from rfl]
    rw [strptime, hR]
    rfl

/-- Witness for C10's amended theorem: a string the default chain parses
fails under posix mode. -/
theorem c10_witness :
    ('%' ∉ "posix".toList ∧ "posix".toList ≠ "dmy".toList ∧ "posix".toList ≠ "mdy".toList ∧
      "2020-03-03".toList.map lowerChar ≠ "posix".toList.map lowerChar) ∧
    readdate (.scalar (.str "2020-03-03".toList)) [] none =
      .ok (.scalar ⟨2020, 3, 3, 0, 0, 0, 0⟩) ∧
    readdateWith strptime (.scalar (.str "2020-03-03".toList)) [] (some (.one "posix".toList)) =
      .error (.valueError (parseFailMsg (.str "2020-03-03".toList)
        [(userKey 0, "posix".toList)] (some (.one "posix".toList)))) :=
  ⟨⟨by decide, by decide, by decide, by decide⟩, by decide,
    c10_mode_replaces_catalog.2.1 "posix".toList "2020-03-03".toList
      (by decide) (by decide) (by decide) (by decide)⟩


end Sciris

namespace Sciris

/-- The canonical `%Y-%m-%d` rendering of the date with ordinal `z`. -/
def canonicalYMD (z : Int) : Str := (dateFromOrdinal z).strftime "%Y-%m-%d".toList

theorem addRelativeDelta_days (t : PDateTime) (k : Int)
    (hm1 : 1 ≤ t.month) (hm2 : t.month ≤ 12) (hd : t.day ≤ daysInMonth t.year t.month) :
    t.addRelativeDelta k 0 0 0 = t.addDays k := by
  obtain ⟨y, m, d, hh, mm, ss, us⟩ := t
  simp only [PDateTime.addRelativeDelta]
  simp only at hm1 hm2 hd
  rw [show m - 1 + 0 + 12 * 0 = m - 1 from by ring]
  rw [show (m - 1) / 12 = 0 from by omega, show (m - 1) % 12 + 1 = m from by omega]
  rw [show y + 0 = y from by ring]
  rw [min_eq_left hd]
  rw [show k + 7 * 0 = k from by ring]

theorem date_scalar_dtime (strp : Str → Str → Except Str PDateTime) (t : PDateTime) :
    dateWith strp (.scalar (.dtime t)) [] .pynone none none false none =
      .ok (some (.scalar (.dstr (t.toDate.strftime "%Y-%m-%d".toList)))) := rfl

theorem datedelta_str_shift (z k : Int)
    (h1 : 1000 ≤ (ord2ymd z).1) (h2 : (ord2ymd z).1 ≤ 9999) :
    datedelta (.str (canonicalYMD z)) k 0 0 0 none = .ok (.dstr (canonicalYMD (z + k))) := by
  obtain ⟨hm1, hm2, hd1, hd2⟩ := ord2ymd_valid z
  have hfmt : canonicalYMD z =
      pad4 (ord2ymd z).1 ++ '-' :: (pad2 (ord2ymd z).2.1 ++ '-' :: pad2 (ord2ymd z).2.2) := rfl
  have hp2 : strptime (canonicalYMD z) "%Y-%m-%d".toList =
      .ok ⟨(ord2ymd z).1, (ord2ymd z).2.1, (ord2ymd z).2.2, 0, 0, 0, 0⟩ := by
    rw [hfmt]
    exact strptime_ymd (ord2ymd z).1 (ord2ymd z).2.1 (ord2ymd z).2.2 h1 h2 hm1 hm2 hd1 hd2
  have hread : readdateWith strptime (.scalar (.str (canonicalYMD z))) [] none =
      .ok (.scalar ⟨(ord2ymd z).1, (ord2ymd z).2.1, (ord2ymd z).2.2, 0, 0, 0, 0⟩) := by
    rw [readdate_scalar_elem strptime _ _ (fun h => by cases h)]
    rw [show formatsToTry none = defaultFormats from rfl]
    rw [readdateElem_default_first strptime _ _ hp2]
    rfl
  rw [datedelta, datedeltaWith, hread]
  show (match dateWith strptime (.scalar (.dtime
      ((⟨(ord2ymd z).1, (ord2ymd z).2.1, (ord2ymd z).2.2, 0, 0, 0, 0⟩ :
        PDateTime).addRelativeDelta k 0 0 0))) [] .pynone none none false none with
    | Except.ok (some (PyOutput.scalar out)) => Except.ok out
    | Except.ok _ => Except.error (PyErr.typeError "unexpected shape".toList)
    | Except.error e => Except.error e) = _
  rw [addRelativeDelta_days _ k hm1 hm2 hd2]
  rw [date_scalar_dtime]
  show Except.ok (DOut.dstr ((PDateTime.addDays
    ⟨(ord2ymd z).1, (ord2ymd z).2.1, (ord2ymd z).2.2, 0, 0, 0, 0⟩ k).toDate.strftime
      "%Y-%m-%d".toList)) = _
  rw [show PDateTime.addDays ⟨(ord2ymd z).1, (ord2ymd z).2.1, (ord2ymd z).2.2, 0, 0, 0, 0⟩ k =
    ⟨(ord2ymd (z + k)).1, (ord2ymd (z + k)).2.1, (ord2ymd (z + k)).2.2, 0, 0, 0, 0⟩ from by
      rw [PDateTime.addDays]
      simp only []
      rw [ymd2ord_ord2ymd z]
      rfl]
  rfl

end Sciris

namespace Sciris

/-- C8: corrected. datedelta does not preserve the input's representation in general
(see the counterexample: a datetime string's time-of-day is truncated), but on canonical
`%Y-%m-%d` date strings shifting by n days and then by -n days is the identity: both
calls succeed and the final output is the original canonical string. -/
theorem c8_datedelta_inverse (z n : Int)
    (h1 : 1000 ≤ (ord2ymd z).1) (h2 : (ord2ymd z).1 ≤ 9999)
    (h3 : 1000 ≤ (ord2ymd (z + n)).1) (h4 : (ord2ymd (z + n)).1 ≤ 9999) :
    datedelta (.str (canonicalYMD z)) n 0 0 0 none = .ok (.dstr (canonicalYMD (z + n))) ∧
    datedelta (.str (canonicalYMD (z + n))) (-n) 0 0 0 none = .ok (.dstr (canonicalYMD z)) := by
  refine ⟨datedelta_str_shift z n h1 h2, ?_⟩
  have h := datedelta_str_shift (z + n) (-n) h3 h4
  rwa [show z + n + -n = z from by omega] at h

/-- Witness for C8 at the ordinal of 2021-07-07 with a 3-day shift. -/
theorem c8_witness :
    datedelta (.str (canonicalYMD 738073)) 3 0 0 0 none =
      .ok (.dstr (canonicalYMD (738073 + 3))) ∧
    datedelta (.str (canonicalYMD (738073 + 3))) (-3) 0 0 0 none =
      .ok (.dstr (canonicalYMD 738073)) :=
  c8_datedelta_inverse 738073 3 (by decide) (by decide) (by decide) (by decide)

end Sciris

namespace Sciris

/-- `datetime.fromtimestamp` generalised with an explicit microsecond field:
the timestamp whose POSIX seconds are `s` and whose microsecond field is `u`.
Used to construct instants at an exact signed offset from a given `now`. -/
def dtFromSecs (s u : Int) : PDateTime :=
  let days := s / 86400
  let secs := s % 86400
  let d := dateFromOrdinal (719163 + days)
  ⟨d.year, d.month, d.day, secs / 3600, secs % 3600 / 60, secs % 60, u⟩

theorem toSecs_dtFromSecs (s u : Int) : (dtFromSecs s u).toSecs = s := by
  show (ymd2ord (ord2ymd (719163 + s / 86400)).1 (ord2ymd (719163 + s / 86400)).2.1
      (ord2ymd (719163 + s / 86400)).2.2 - 719163) * 86400 +
    s % 86400 / 3600 * 3600 + s % 86400 % 3600 / 60 * 60 + s % 86400 % 60 = s
  rw [ymd2ord_ord2ymd]
  omega

theorem toMicros_dtFromSecs (s u : Int) : (dtFromSecs s u).toMicros = s * 1000000 + u := by
  rw [PDateTime.toMicros, toSecs_dtFromSecs]
  rfl

theorem dtFromSecs_month (s u : Int) :
    1 ≤ (dtFromSecs s u).month ∧ (dtFromSecs s u).month ≤ 12 :=
  ⟨(ord2ymd_valid (719163 + s / 86400)).1, (ord2ymd_valid (719163 + s / 86400)).2.1⟩

theorem getLast_tail_pad4 (a : Char) (A : Str) (y : Int) :
    (a :: (A ++ ' ' :: pad4 y)).getLast? = some (Nat.digitChar (y.toNat % 10)) := by
  rw [show a :: (A ++ ' ' :: pad4 y) = (a :: A) ++ ' ' :: pad4 y from rfl]
  rw [List.getLast?_append_cons]
  rfl

theorem printDate_getLast_true (t : PDateTime) :
    (printDate t true true).getLast? = some (Nat.digitChar (t.year.toNat % 10)) := by
  have h : printDate t true true =
      match pad2 t.day ++ ' ' ::
          (monthAbbrevs[t.month.toNat - 1]?.getD [] ++ ' ' :: pad4 t.year) with
        | '0' :: rest => rest
        | ds => ds := by
    simp [printDate, strftime]
  rw [h]
  show (match Nat.digitChar (t.day.toNat / 10 % 10) :: Nat.digitChar (t.day.toNat % 10) ::
      (' ' :: (monthAbbrevs[t.month.toNat - 1]?.getD [] ++ ' ' :: pad4 t.year)) with
    | '0' :: rest => rest
    | ds => ds).getLast? = some (Nat.digitChar (t.year.toNat % 10))
  split
  · rename_i rest heq
    injection heq with h1 h2
    subst h2
    rw [List.getLast?_cons_cons]
    exact getLast_tail_pad4 ' ' _ t.year
  · rw [List.getLast?_cons_cons, List.getLast?_cons_cons]
    exact getLast_tail_pad4 ' ' _ t.year

theorem abbrev_getLast (t : PDateTime) (hm1 : 1 ≤ t.month) (hm2 : t.month ≤ 12) :
    ∃ c, (monthAbbrevs[t.month.toNat - 1]?.getD []).getLast? = some c ∧ c ≠ 'o' := by
  have h12 : t.month = 1 ∨ t.month = 2 ∨ t.month = 3 ∨ t.month = 4 ∨ t.month = 5 ∨
      t.month = 6 ∨ t.month = 7 ∨ t.month = 8 ∨ t.month = 9 ∨ t.month = 10 ∨
      t.month = 11 ∨ t.month = 12 := by omega
  rcases h12 with h|h|h|h|h|h|h|h|h|h|h|h <;> rw [h] <;> exact ⟨_, rfl, by decide⟩

theorem printDate_getLast_false (t : PDateTime) (hm1 : 1 ≤ t.month) (hm2 : t.month ≤ 12) :
    ∃ c, (printDate t false true).getLast? = some c ∧ c ≠ 'o' := by
  obtain ⟨c, hc, hco⟩ := abbrev_getLast t hm1 hm2
  have hne : monthAbbrevs[t.month.toNat - 1]?.getD [] ≠ [] := by
    intro hnil
    rw [hnil] at hc
    cases hc
  have h : printDate t false true =
      match pad2 t.day ++ ' ' :: monthAbbrevs[t.month.toNat - 1]?.getD [] with
        | '0' :: rest => rest
        | ds => ds := by
    simp [printDate, strftime]
  refine ⟨c, ?_, hco⟩
  rw [h]
  show (match Nat.digitChar (t.day.toNat / 10 % 10) :: Nat.digitChar (t.day.toNat % 10) ::
      (' ' :: monthAbbrevs[t.month.toNat - 1]?.getD []) with
    | '0' :: rest => rest
    | ds => ds).getLast? = some c
  split
  · rename_i rest heq
    injection heq with h1 h2
    subst h2
    rw [List.getLast?_cons_cons]
    rw [show (' ' :: monthAbbrevs[t.month.toNat - 1]?.getD []) =
      [' '] ++ monthAbbrevs[t.month.toNat - 1]?.getD [] from rfl]
    rw [List.getLast?_append_of_ne_nil _ hne]
    exact hc
  · rw [List.getLast?_cons_cons, List.getLast?_cons_cons]
    rw [show (' ' :: monthAbbrevs[t.month.toNat - 1]?.getD []) =
      [' '] ++ monthAbbrevs[t.month.toNat - 1]?.getD [] from rfl]
    rw [List.getLast?_append_of_ne_nil _ hne]
    exact hc

theorem no_ago_of_getLast (s : Str) (c : Char) (hc : s.getLast? = some c) (hco : c ≠ 'o') :
    ¬ (" ago".toList <:+ s) := by
  intro h
  obtain ⟨u, hu⟩ := h
  rw [← hu] at hc
  rw [show " ago".toList = ' ' :: 'a' :: 'g' :: 'o' :: ([] : Str) from rfl] at hc
  rw [List.getLast?_append_cons] at hc
  rw [show ((' ' : Char) :: 'a' :: 'g' :: 'o' :: ([] : Str)).getLast? = some 'o' from rfl] at hc
  injection hc with h1
  exact hco h1.symm

theorem elapsed_59 (t : PDateTime) :
    elapsedtimestr (.dtime (dtFromSecs (t.toSecs - 59) t.micro)) 5 10 true t =
      .ok "59 secs ago".toList := by
  simp only [elapsedtimestr, toMicros_dtFromSecs]
  rw [show t.toMicros = t.toSecs * 1000000 + t.micro from rfl]
  rw [if_neg (by omega), if_pos (by omega), if_neg (by omega)]
  rw [show (t.toSecs * 1000000 + t.micro - ((t.toSecs - 59) * 1000000 + t.micro)) / 1000000 %
    86400 = (59 : Int) from by omega]
  rfl

theorem elapsed_60 (t : PDateTime) :
    elapsedtimestr (.dtime (dtFromSecs (t.toSecs - 60) t.micro)) 5 10 true t =
      .ok "a minute ago".toList := by
  simp only [elapsedtimestr, toMicros_dtFromSecs]
  rw [show t.toMicros = t.toSecs * 1000000 + t.micro from rfl]
  rw [if_neg (by omega), if_neg (by omega), if_pos (by omega), if_pos (by omega)]

theorem elapsed_1 (t : PDateTime) :
    elapsedtimestr (.dtime (dtFromSecs (t.toSecs - 1) t.micro)) 5 10 true t =
      .ok "just now".toList := by
  simp only [elapsedtimestr, toMicros_dtFromSecs]
  rw [show t.toMicros = t.toSecs * 1000000 + t.micro from rfl]
  rw [if_neg (by omega), if_pos (by omega), if_pos (by omega)]

theorem elapsed_future (t : PDateTime) :
    ∃ s, elapsedtimestr (.dtime (dtFromSecs (t.toSecs + 86400) t.micro)) 5 10 true t =
      .ok s ∧ ¬ (" ago".toList <:+ s) := by
  simp only [elapsedtimestr, toMicros_dtFromSecs]
  rw [show t.toMicros = t.toSecs * 1000000 + t.micro from rfl]
  rw [if_pos (by omega)]
  cases hb : decide ((dtFromSecs (t.toSecs + 86400) t.micro).year ≠ t.year) with
  | false =>
    obtain ⟨hm1, hm2⟩ := dtFromSecs_month (t.toSecs + 86400) t.micro
    obtain ⟨c, hc, hco⟩ := printDate_getLast_false (dtFromSecs (t.toSecs + 86400) t.micro) hm1 hm2
    exact ⟨_, rfl, no_ago_of_getLast _ c hc hco⟩
  | true =>
    have hc := printDate_getLast_true (dtFromSecs (t.toSecs + 86400) t.micro)
    exact ⟨_, rfl, no_ago_of_getLast _ _ hc
      (digitChar_ne_o _ (by omega))⟩

/-- C9: confirmed. With the current instant `t` held fixed (the source reads
`dt.datetime.now()`; here it is the explicit `now_time` argument) and all other
arguments at their defaults (`maxdays=5`, `minseconds=10`, `shortmonths=True`):
the instant 59 seconds before `t` renders as "59 secs ago", not "a minute ago";
the instant 60 seconds before `t` renders as "a minute ago"; the instant
1 second before `t` renders as "just now" (since `min_seconds=10`); and the
instant one day after `t` renders as a date string that does not end in an
"ago" phrase. -/
theorem c9_elapsed_buckets (t : PDateTime) :
    (elapsedtimestr (.dtime (dtFromSecs (t.toSecs - 59) t.micro)) 5 10 true t =
        .ok "59 secs ago".toList ∧
      "59 secs ago".toList ≠ "a minute ago".toList) ∧
    elapsedtimestr (.dtime (dtFromSecs (t.toSecs - 60) t.micro)) 5 10 true t =
      .ok "a minute ago".toList ∧
    elapsedtimestr (.dtime (dtFromSecs (t.toSecs - 1) t.micro)) 5 10 true t =
      .ok "just now".toList ∧
    ∃ s, elapsedtimestr (.dtime (dtFromSecs (t.toSecs + 86400) t.micro)) 5 10 true t =
      .ok s ∧ ¬ (" ago".toList <:+ s) :=
  ⟨⟨elapsed_59 t, by decide⟩, elapsed_60 t, elapsed_1 t, elapsed_future t⟩

end Sciris

namespace Sciris

theorem readdate_list (vs : List RawVal) (gr : RawVal → PDateTime)
    (h : ∀ x ∈ vs, readdateElemWith strptime (formatListOf none) defaultFormats none x =
      .ok (gr x)) :
    readdate (.list vs) [] none = .ok (.list (vs.map gr)) := by
  rw [readdate, readdateWith]
  show (List.mapM (readdateElemWith strptime (formatListOf none) defaultFormats none)
    (vs ++ [])).map (fun l => sanitizeOutput l true false) = _
  rw [List.append_nil, mapM_ok _ vs gr h]
  rfl

theorem date_list (vs : List RawVal) (sd : RawVal) (rf : Option DFormat) (ad : Bool)
    (gd : RawVal → DOut)
    (h : ∀ x ∈ vs, dateElemWith strptime sd rf "%Y-%m-%d".toList ad x = .ok (gd x)) :
    date (.list vs) [] sd rf none ad none = .ok (some (.list (vs.map gd))) := by
  rw [date, dateWith, if_neg (fun hh => by cases hh)]
  show (List.mapM (dateElemWith strptime sd rf "%Y-%m-%d".toList ad) (vs ++ [])).map
    (fun l => some (sanitizeOutput l true false)) = _
  rw [List.append_nil, mapM_ok _ vs gd h]
  rfl

theorem dayLoop_mixed (vs : List RawVal) (p0 : PDate) (gy : RawVal → PDate)
    (h : ∀ x ∈ vs, x ≠ .pynone → (∀ n, x ≠ .num n) → dayElemConv strptime x = .ok (gy x)) :
    dayLoop strptime vs (.pdate p0) = .ok (vs.map (fun x => match x with
      | .pynone => none
      | .num n => some n
      | x => some ((gy x).sub p0))) := by
  induction vs with
  | nil => rfl
  | cons v rest ih =>
    have hrest := ih (fun x hx h1 h2 => h x (List.mem_cons_of_mem v hx) h1 h2)
    cases v with
    | pynone =>
      rw [List.map_cons, dayLoop, hrest]
      rfl
    | num n =>
      rw [List.map_cons, dayLoop, hrest]
      rfl
    | str s =>
      rw [List.map_cons, dayLoop]
      rotate_left
      · intro hh; cases hh
      · intro n hh; cases hh
      rw [h (.str s) (List.mem_cons_self _ _) (fun hh => by cases hh) (fun n hh => by cases hh)]
      simp only [Except.mapError, Except.bind]
      rw [show dayStartResolve strptime (.pdate p0) (gy (.str s)) = .ok p0 from rfl]
      simp only [Except.mapError, Except.bind, hrest, Except.map]
    | dtime t =>
      rw [List.map_cons, dayLoop]
      rotate_left
      · intro hh; cases hh
      · intro n hh; cases hh
      rw [h (.dtime t) (List.mem_cons_self _ _) (fun hh => by cases hh) (fun n hh => by cases hh)]
      simp only [Except.mapError, Except.bind]
      rw [show dayStartResolve strptime (.pdate p0) (gy (.dtime t)) = .ok p0 from rfl]
      simp only [Except.mapError, Except.bind, hrest, Except.map]
    | pdate d =>
      rw [List.map_cons, dayLoop]
      rotate_left
      · intro hh; cases hh
      · intro n hh; cases hh
      rw [h (.pdate d) (List.mem_cons_self _ _) (fun hh => by cases hh) (fun n hh => by cases hh)]
      simp only [Except.mapError, Except.bind]
      rw [show dayStartResolve strptime (.pdate p0) (gy (.pdate d)) = .ok p0 from rfl]
      simp only [Except.mapError, Except.bind, hrest, Except.map]

theorem day_list (vs : List RawVal) (p0 : PDate) (gy : RawVal → PDate)
    (h : ∀ x ∈ vs, x ≠ .pynone → (∀ n, x ≠ .num n) → dayElemConv strptime x = .ok (gy x)) :
    day (.list vs) [] (.pdate p0) = .ok (some (.list (vs.map (fun x => match x with
      | .pynone => none
      | .num n => some n
      | x => some ((gy x).sub p0))))) := by
  rw [day, dayWith, if_neg (fun hh => by cases hh)]
  show (dayLoop strptime (vs ++ []) (.pdate p0)).map
    (fun l => some (sanitizeOutput l true false)) = _
  rw [List.append_nil, dayLoop_mixed vs p0 gy h]
  rfl

theorem date_scalar_elem (sd : RawVal) (rf : Option DFormat) (ad : Bool)
    (v : RawVal) (hv : v ≠ .pynone) :
    date (.scalar v) [] sd rf none ad none =
      (dateElemWith strptime sd rf "%Y-%m-%d".toList ad v).map (fun r => some (.scalar r)) := by
  have hs : sanitizeIterables (.scalar v) [] = ([v], false, false) := by
    cases v with
    | pynone => exact absurd rfl hv
    | num n => rfl
    | str s => rfl
    | dtime t => rfl
    | pdate d => rfl
  rw [date, dateWith, if_neg (fun hh => hv (PyInput.scalar.inj hh)), hs]
  cases h : dateElemWith strptime sd rf "%Y-%m-%d".toList ad v with
  | ok r =>
    rw [show ("%Y-%m-%d".toList : Str) = ['%', 'Y', '-', '%', 'm', '-', '%', 'd'] from rfl] at h
    simp [List.mapM, List.mapM.loop, h, sanitizeOutput, Except.map, Except.bind, Except.pure]
  | error e =>
    rw [show ("%Y-%m-%d".toList : Str) = ['%', 'Y', '-', '%', 'm', '-', '%', 'd'] from rfl] at h
    simp [List.mapM, List.mapM.loop, h, Except.map, Except.bind, Except.pure]

theorem day_scalar_elem (p0 : PDate) (v : RawVal) (yv : PDate)
    (h1 : v ≠ .pynone) (h2 : ∀ n, v ≠ .num n)
    (hvy : dayElemConv strptime v = .ok yv) :
    day (.scalar v) [] (.pdate p0) = .ok (some (.scalar (some (yv.sub p0)))) := by
  have hs : sanitizeIterables (.scalar v) [] = ([v], false, false) := by
    cases v with
    | pynone => exact absurd rfl h1
    | num n => rfl
    | str s => rfl
    | dtime t => rfl
    | pdate d => rfl
  rw [day, dayWith, if_neg (fun hh => h1 (PyInput.scalar.inj hh)), hs]
  show (dayLoop strptime [v] (.pdate p0)).map
    (fun l => some (sanitizeOutput l false false)) = _
  cases v with
  | pynone => exact absurd rfl h1
  | num n => exact absurd rfl (h2 n)
  | str s =>
    rw [dayLoop]
    rotate_left
    · intro hh; cases hh
    · intro n hh; cases hh
    rw [hvy]
    simp only [Except.mapError, Except.bind]
    rw [show dayStartResolve strptime (.pdate p0) yv = .ok p0 from rfl]
    simp only [Except.mapError, Except.bind]
    rfl
  | dtime t =>
    rw [dayLoop]
    rotate_left
    · intro hh; cases hh
    · intro n hh; cases hh
    rw [hvy]
    simp only [Except.mapError, Except.bind]
    rw [show dayStartResolve strptime (.pdate p0) yv = .ok p0 from rfl]
    simp only [Except.mapError, Except.bind]
    rfl
  | pdate d =>
    rw [dayLoop]
    rotate_left
    · intro hh; cases hh
    · intro n hh; cases hh
    rw [hvy]
    simp only [Except.mapError, Except.bind]
    rw [show dayStartResolve strptime (.pdate p0) yv = .ok p0 from rfl]
    simp only [Except.mapError, Except.bind]
    rfl

/-- C1: corrected. For `date` and `day` the claim holds: a scalar input yields a
scalar output, a length-k list yields a length-k list, and every `None` element
passes through as `None` (`date`) or `None`/numeric pass-through (`day`) without
raising, whenever every element's own conversion succeeds. For `readdate` the
shape claims hold for lists of convertible elements, but a `None` element does
not propagate: it raises the parse-exhausted `ValueError` (see the
counterexample), so `None` propagation is restricted to `date` and `day`.
A whole-input scalar `None` returns `None` from `date` and `day`. -/
theorem c1_shape_none
    (vsr vs : List RawVal) (gr : RawVal → PDateTime) (gd : RawVal → DOut)
    (gy : RawVal → PDate) (sd : RawVal) (rf : Option DFormat) (ad : Bool) (p0 : PDate)
    (v : RawVal) (rv : PDateTime) (dv : DOut) (yv : PDate)
    (hr : ∀ x ∈ vsr, readdateElemWith strptime (formatListOf none) defaultFormats none x =
      .ok (gr x))
    (hd : ∀ x ∈ vs, dateElemWith strptime sd rf "%Y-%m-%d".toList ad x = .ok (gd x))
    (hy : ∀ x ∈ vs, x ≠ .pynone → (∀ n, x ≠ .num n) → dayElemConv strptime x = .ok (gy x))
    (hv : v ≠ .pynone) (hvn : ∀ n, v ≠ .num n)
    (hvr : readdateElemWith strptime (formatListOf none) defaultFormats none v = .ok rv)
    (hvd : dateElemWith strptime sd rf "%Y-%m-%d".toList ad v = .ok dv)
    (hvy : dayElemConv strptime v = .ok yv) :
    (readdate (.list vsr) [] none = .ok (.list (vsr.map gr)) ∧
      (vsr.map gr).length = vsr.length) ∧
    (date (.list vs) [] sd rf none ad none = .ok (some (.list (vs.map gd))) ∧
      (vs.map gd).length = vs.length ∧
      ∀ x ∈ vs, x = .pynone → gd x = .dnone) ∧
    (day (.list vs) [] (.pdate p0) =
        .ok (some (.list (vs.map (fun x => match x with
          | .pynone => none
          | .num n => some n
          | x => some ((gy x).sub p0))))) ∧
      (vs.map (fun x : RawVal => match x with
          | .pynone => (none : Option Int)
          | .num n => some n
          | x => some ((gy x).sub p0))).length = vs.length) ∧
    readdate (.scalar v) [] none = .ok (.scalar rv) ∧
    date (.scalar v) [] sd rf none ad none = .ok (some (.scalar dv)) ∧
    day (.scalar v) [] (.pdate p0) = .ok (some (.scalar (some (yv.sub p0)))) ∧
    date (.scalar .pynone) [] sd rf none ad none = .ok none ∧
    day (.scalar .pynone) [] (.pdate p0) = .ok none := by
  refine ⟨⟨readdate_list vsr gr hr, List.length_map _ _⟩,
    ⟨date_list vs sd rf ad gd hd, List.length_map _ _, ?_⟩,
    ⟨day_list vs p0 gy hy, List.length_map _ _⟩,
    ?_, ?_, day_scalar_elem p0 v yv hv hvn hvy, rfl, rfl⟩
  · intro x hx hxp
    have h2 := hd x hx
    rw [hxp] at h2 ⊢
    have h3 : Except.ok DOut.dnone = Except.ok (gd .pynone) := h2
    injection h3 with h4
    exact h4.symm
  · rw [readdate, readdate_scalar_elem strptime none v hv,
      show formatsToTry none = defaultFormats from rfl, hvr]
    rfl
  · rw [date_scalar_elem sd rf ad v hv, hvd]
    rfl

/-- Witness for C1 at a one-element datetime list, a one-element None list,
and a scalar datetime. -/
theorem c1_witness :
    readdate (.list [.dtime ⟨2020, 1, 1, 0, 0, 0, 0⟩]) [] none =
      .ok (.list [⟨2020, 1, 1, 0, 0, 0, 0⟩]) ∧
    date (.list [.pynone]) [] .pynone none none true none = .ok (some (.list [.dnone])) ∧
    day (.list [.pynone]) [] (.pdate ⟨2020, 1, 1⟩) = .ok (some (.list [none])) ∧
    readdate (.scalar (.dtime ⟨2020, 1, 1, 0, 0, 0, 0⟩)) [] none =
      .ok (.scalar ⟨2020, 1, 1, 0, 0, 0, 0⟩) ∧
    date (.scalar (.dtime ⟨2020, 1, 1, 0, 0, 0, 0⟩)) [] .pynone none none true none =
      .ok (some (.scalar (.dd ⟨2020, 1, 1⟩))) ∧
    day (.scalar (.dtime ⟨2020, 1, 1, 0, 0, 0, 0⟩)) [] (.pdate ⟨2020, 1, 1⟩) =
      .ok (some (.scalar (some 0))) ∧
    date (.scalar .pynone) [] .pynone none none true none = .ok none ∧
    day (.scalar .pynone) [] (.pdate ⟨2020, 1, 1⟩) = .ok none := by
  have H := c1_shape_none [.dtime ⟨2020, 1, 1, 0, 0, 0, 0⟩] [.pynone]
    (fun _ => ⟨2020, 1, 1, 0, 0, 0, 0⟩) (fun _ => .dnone) (fun _ => ⟨2020, 1, 1⟩)
    .pynone none true ⟨2020, 1, 1⟩ (.dtime ⟨2020, 1, 1, 0, 0, 0, 0⟩)
    ⟨2020, 1, 1, 0, 0, 0, 0⟩ (.dd ⟨2020, 1, 1⟩) ⟨2020, 1, 1⟩
    (by decide) (by decide)
    (fun x hx h1 _ => absurd (List.mem_singleton.mp hx) h1)
    (by decide) (fun n h => RawVal.noConfusion h)
    (by decide) (by decide) (by decide)
  exact ⟨H.1.1, H.2.1.1, H.2.2.1.1, H.2.2.2.1, H.2.2.2.2.1, H.2.2.2.2.2.1,
    H.2.2.2.2.2.2.1, H.2.2.2.2.2.2.2⟩

end Sciris
